import Mathlib

/-!
Verification development for the autonomous black-box web-testing service
(testbounty_agent and test_sprite_agent).  The Python sources are embedded
shallowly: pure functions become Lean functions, the stateful planner and
crawler become explicit state passing, and everything browser- or
network-dependent (Playwright calls, subprocess output, LLM calls) is
abstracted as an explicit environment parameter supplied to the function
that consumes it.  Python dicts with `.get` defaults become structures with
`Option` fields where the source distinguishes absent keys, and insertion
ordered dicts become association lists.
-/

/-! ### Shared string helpers -/

/-- Substring containment, modelling Python's `in` operator on strings. -/
def strContains (hay needle : String) : Bool :=
  decide (needle.data <:+: hay.data)

/-- Zero-padded decimal, modelling the Python format `f"{n:03d}"`
(used by `PlannerAgent._next_id` in `planner.py`). -/
def pad3 (n : Nat) : String :=
  let s := toString n
  if s.length < 3 then String.mk (List.replicate (3 - s.length) '0') ++ s else s

/-- Python `str.title()` restricted to its behaviour on ASCII text: an
alphabetic character is upper-cased when the previous character is not
alphabetic and lower-cased otherwise. -/
def titleAux : List Char → Bool → List Char
  | [], _ => []
  | c :: cs, prevAlpha =>
    if c.isAlpha then (if prevAlpha then c.toLower else c.toUpper) :: titleAux cs true
    else c :: titleAux cs false

/-- Python `str.title()` (ASCII). -/
def strTitle (s : String) : String :=
  String.mk (titleAux s.data false)

/-! ### App-map data model

Embeds the JSON dictionaries produced by `ExplorerAgent` in
`testbounty_agent/src/agents/explorer.py` and consumed by `PlannerAgent` in
`testbounty_agent/src/agents/planner.py`.  Fields read through `dict.get`
with a default in the source are `Option`-valued when the default matters
(`requires_auth`); fields always written by the explorer are plain. -/

/-- A form field record (`_extract_forms` in `explorer.py`). -/
structure FormField where
  type : String
  name : String
  id : String
  placeholder : String
  required : Bool
  selector : String
  deriving Repr, DecidableEq

/-- A form record (`_extract_forms` in `explorer.py`). -/
structure Form where
  id : String
  selector : String
  action : String
  method : String
  fields : List FormField
  submit_text : String
  submit_selector : String
  deriving Repr, DecidableEq

/-- A button record (`_extract_buttons` in `explorer.py`). -/
structure Button where
  text : String
  id : String
  type : String
  action : String
  deriving Repr, DecidableEq

/-- A navigation-link record (`_extract_nav_links` in `explorer.py`). -/
structure NavLink where
  text : String
  href : String
  deriving Repr, DecidableEq

/-- A standalone-input record (`_extract_inputs` in `explorer.py`). -/
structure StandaloneInput where
  type : String
  name : String
  placeholder : String
  deriving Repr, DecidableEq

/-- A modal record (`_extract_modals` in `explorer.py`). -/
structure Modal where
  id : String
  title : String
  deriving Repr, DecidableEq

/-- A page record (`_extract_page_info` in `explorer.py`).  `requires_auth`
is `Option`-valued because the planner reads it through
`page.get('requires_auth', True)`; the explorer always writes `some`. -/
structure Page where
  url : String
  path : String
  title : String
  type : String
  forms : List Form
  buttons : List Button
  inputs : List StandaloneInput
  nav_links : List NavLink
  modals : List Modal
  requires_auth : Option Bool
  deriving Repr, DecidableEq

/-- A module entry of the app map (`_group_into_modules` in `explorer.py`).
`requires_auth` is `Option`-valued because the planner reads it with two
different defaults (`True` in `_generate_dashboard_scenarios`, `False` in
`generate_scenarios`). -/
structure ModuleData where
  pages : List Page
  requires_auth : Option Bool
  deriving Repr, DecidableEq

/-- The app map (`explore` in `explorer.py`).  `modules` is an insertion
ordered dict, embedded as an association list. -/
structure AppMap where
  base_url : String
  pages : List Page
  modules : List (String × ModuleData)
  deriving Repr, DecidableEq

/-! ### Planner data model (`planner.py`) -/

/-- `ScenarioType` enum in `planner.py`. -/
inductive ScenarioType where
  | happy_path
  | error_path
  | edge_case
  | security
  deriving Repr, DecidableEq

/-- `Priority` enum in `planner.py`. -/
inductive Priority where
  | high
  | medium
  | low
  deriving Repr, DecidableEq

/-- `TestStep` dataclass in `planner.py`. -/
structure TestStep where
  action : String
  target : String
  value : Option String := none
  description : String := ""
  deriving Repr, DecidableEq

/-- `TestScenario` dataclass in `planner.py`.  `status` defaults to
`"pending"` exactly as in the dataclass. -/
structure TestScenario where
  id : String
  name : String
  description : String
  module : String
  type : ScenarioType
  priority : Priority
  depends_on : Option String
  steps : List TestStep
  status : String := "pending"
  deriving Repr, DecidableEq

/-- The mutable planner state: `self.scenario_counter` and
`self.scenarios` of `PlannerAgent`. -/
structure PlannerState where
  counter : Nat
  scenarios : List TestScenario
  deriving Repr

/-- `PlannerAgent._next_id`: increments the shared counter and formats
the id as `prefix_NNN`.  Note the counter is a single instance attribute
shared by every prefix. -/
def nextId (st : PlannerState) (pfx : String) : String × PlannerState :=
  let c := st.counter + 1
  (pfx ++ "_" ++ pad3 c, { st with counter := c })

/-- The fields of a `TestScenario` other than the generated `id` and the
defaulted `status`.  Every `self.scenarios.append(TestScenario(id=self._next_id(p), ...))`
site in `planner.py` is embedded as `emit st p body`. -/
structure ScenarioBody where
  name : String
  description : String
  module : String
  type : ScenarioType
  priority : Priority
  depends_on : Option String
  steps : List TestStep
  deriving Repr

/-- One `self.scenarios.append(TestScenario(id=self._next_id(pfx), ...))`
call in `planner.py`. -/
def emit (st : PlannerState) (pfx : String) (b : ScenarioBody) : PlannerState :=
  let (id, st1) := nextId st pfx
  let s : TestScenario :=
    { id := id, name := b.name, description := b.description,
      «module» := b.module, type := b.type, priority := b.priority,
      depends_on := b.depends_on, steps := b.steps }
  { st1 with scenarios := st1.scenarios ++ [s] }

/-- The selector-role record built by `PlannerAgent._get_form_selectors`.
Entries only ever hold non-empty selectors (the source skips empty ones),
so `none` models Python `None` and the falsy empty string at once. -/
structure FormSelectors where
  email : Option String := none
  username : Option String := none
  password : Option String := none
  name : Option String := none
  confirm_password : Option String := none
  submit : Option String := none
  deriving Repr, DecidableEq

/-- The per-field branch of `PlannerAgent._get_form_selectors`. -/
def classifyField (sel : FormSelectors) (f : FormField) : FormSelectors :=
  let fieldName := f.name.toLower
  let fieldType := f.type.toLower
  if f.selector = "" then sel
  else if strContains fieldName "email" || fieldType = "email" then
    { sel with email := some f.selector }
  else if strContains fieldName "user" || strContains fieldName "login" then
    { sel with username := some f.selector }
  else if strContains fieldName "pass" || fieldType = "password" then
    if strContains fieldName "confirm" || strContains fieldName "repeat" then
      { sel with confirm_password := some f.selector }
    else if sel.password.isNone then { sel with password := some f.selector }
    else sel
  else if strContains fieldName "name" && !(strContains fieldName "user") then
    { sel with name := some f.selector }
  else sel

/-- The per-form step of `PlannerAgent._get_form_selectors`: classify every
field, then record the submit selector when it is truthy. -/
def classifyForm (sel : FormSelectors) (form : Form) : FormSelectors :=
  let sel1 := form.fields.foldl classifyField sel
  if form.submit_selector ≠ "" then { sel1 with submit := some form.submit_selector }
  else sel1

/-- `PlannerAgent._get_form_selectors`. -/
def getFormSelectors (page : Page) : FormSelectors :=
  page.forms.foldl classifyForm {}

/-! ### Planner scenario generators -/

/-- The `page['type'] == 'login'` branch body and the `'register'` branch of
`PlannerAgent._generate_auth_scenarios`, for one page. -/
def genAuthPage (st : PlannerState) (page : Page) : PlannerState :=
  let sel := getFormSelectors page
  let emailSelector := (sel.email.orElse fun _ => sel.username).getD
    "input[type='email'], input[name='email'], input[name='username'], #Email"
  let passwordSelector := sel.password.getD
    "input[type='password'], input[name='password'], #Password"
  let submitSelector := sel.submit.getD
    "button[type='submit'], input[type='submit'], .login-button, .btn-login"
  if page.type = "login" then
    let st := emit st "auth"
      { name := "Valid Login", description := "Test login with valid credentials",
        «module» := "auth", type := .happy_path, priority := .high, depends_on := none,
        steps := [
          { action := "navigate", target := page.url, description := "Go to login page" },
          { action := "fill", target := emailSelector, value := some "testuser@example.com",
            description := "Enter email/username" },
          { action := "fill", target := passwordSelector, value := some "TestPassword123!",
            description := "Enter password" },
          { action := "click", target := submitSelector, description := "Click login button" },
          { action := "wait", target := "navigation", description := "Wait for redirect" },
          { action := "assert", target := "url_changed",
            description := "Verify redirected to dashboard" }] }
    let st := emit st "auth"
      { name := "Invalid Password",
        description := "Test login with wrong password shows error",
        «module» := "auth", type := .error_path, priority := .high, depends_on := none,
        steps := [
          { action := "navigate", target := page.url, description := "Go to login page" },
          { action := "fill", target := emailSelector, value := some "testuser@example.com",
            description := "Enter email" },
          { action := "fill", target := passwordSelector, value := some "wrongpassword",
            description := "Enter wrong password" },
          { action := "click", target := submitSelector, description := "Click login" },
          { action := "assert", target := "error_message_visible",
            description := "Verify error message shown" }] }
    let st := emit st "auth"
      { name := "Empty Form Submission",
        description := "Test submitting empty login form",
        «module» := "auth", type := .edge_case, priority := .medium, depends_on := none,
        steps := [
          { action := "navigate", target := page.url, description := "Go to login page" },
          { action := "click", target := submitSelector,
            description := "Click login without filling form" },
          { action := "assert", target := "validation_error",
            description := "Verify validation error shown" }] }
    emit st "auth"
      { name := "SQL Injection Test",
        description := "Test login form against SQL injection",
        «module» := "auth", type := .security, priority := .high, depends_on := none,
        steps := [
          { action := "navigate", target := page.url, description := "Go to login page" },
          { action := "fill", target := emailSelector, value := some "' OR '1'='1",
            description := "Enter SQL injection payload" },
          { action := "fill", target := passwordSelector, value := some "' OR '1'='1",
            description := "Enter SQL injection in password" },
          { action := "click", target := submitSelector, description := "Submit" },
          { action := "assert", target := "no_unauthorized_access",
            description := "Verify no unauthorized access" }] }
  else if page.type = "register" then
    let nameSelector := sel.name.getD
      "input[name='name'], input[name='fullname'], input[name='FirstName'], #FirstName"
    let confirmPassSelector := sel.confirm_password.getD
      "input[name='ConfirmPassword'], input[name='confirm_password'], #ConfirmPassword"
    emit st "auth"
      { name := "Valid Registration", description := "Test registration with valid data",
        «module» := "auth", type := .happy_path, priority := .high, depends_on := none,
        steps := [
          { action := "navigate", target := page.url, description := "Go to register page" },
          { action := "fill", target := nameSelector, value := some "Test User",
            description := "Enter name" },
          { action := "fill", target := emailSelector, value := some "newuser@example.com",
            description := "Enter email" },
          { action := "fill", target := passwordSelector, value := some "SecurePass123!",
            description := "Enter password" },
          { action := "fill", target := confirmPassSelector, value := some "SecurePass123!",
            description := "Confirm password" },
          { action := "click", target := submitSelector, description := "Submit registration" },
          { action := "assert", target := "success_or_redirect",
            description := "Verify registration success" }] }
  else st

/-- `PlannerAgent._generate_auth_scenarios`. -/
def genAuthScenarios (st : PlannerState) (m : ModuleData) : PlannerState :=
  m.pages.foldl genAuthPage st

/-- One button iteration of the dashboard branch of
`PlannerAgent._generate_dashboard_scenarios`. -/
def genDashButton (page : Page) (dependsOn : Option String) (st : PlannerState)
    (btn : Button) : PlannerState :=
  if btn.action ≠ "cancel" && btn.action ≠ "close" then
    emit st "dash"
      { name := "Click " ++ btn.text,
        description := "Test clicking '" ++ btn.text ++ "' button on dashboard",
        «module» := "dashboard", type := .happy_path, priority := .medium,
        depends_on := dependsOn,
        steps := [
          { action := "navigate", target := page.url, description := "Go to dashboard" },
          { action := "click", target := "button:has-text('" ++ btn.text ++ "')",
            description := "Click " ++ btn.text },
          { action := "assert", target := "action_result",
            description := "Verify action completed" }] }
  else st

/-- One nav-link iteration of the landing branch of
`PlannerAgent._generate_dashboard_scenarios`. -/
def genDashNavLink (page : Page) (st : PlannerState) (link : NavLink) : PlannerState :=
  if link.text ≠ "" then
    emit st "dash"
      { name := "Navigate to " ++ link.text,
        description := "Test navigation link '" ++ link.text ++ "'",
        «module» := "dashboard", type := .happy_path, priority := .low, depends_on := none,
        steps := [
          { action := "navigate", target := page.url, description := "Go to landing page" },
          { action := "click", target := "a:has-text('" ++ link.text ++ "')",
            description := "Click " ++ link.text ++ " link" },
          { action := "assert", target := "navigation_success",
            description := "Verify navigation works" }] }
  else st

/-- The per-page body of `PlannerAgent._generate_dashboard_scenarios`. -/
def genDashPage (dependsOn : Option String) (st : PlannerState) (page : Page) :
    PlannerState :=
  if page.type = "dashboard" then
    let st := emit st "dash"
      { name := "View Dashboard",
        description := "Verify dashboard loads with correct elements",
        «module» := "dashboard", type := .happy_path, priority := .high,
        depends_on := dependsOn,
        steps := [
          { action := "navigate", target := page.url, description := "Go to dashboard" },
          { action := "assert", target := "page_loaded", description := "Verify page loads" },
          { action := "assert", target := "key_elements_visible",
            description := "Verify dashboard elements visible" }] }
    page.buttons.foldl (genDashButton page dependsOn) st
  else if page.type = "landing" then
    let st := emit st "dash"
      { name := "View Landing Page",
        description := "Verify landing page loads correctly",
        «module» := "dashboard", type := .happy_path, priority := .high, depends_on := none,
        steps := [
          { action := "navigate", target := page.url, description := "Go to landing page" },
          { action := "assert", target := "page_loaded", description := "Verify page loads" },
          { action := "assert", target := "cta_buttons_visible",
            description := "Verify CTA buttons visible" }] }
    page.nav_links.foldl (genDashNavLink page) st
  else st

/-- `PlannerAgent._generate_dashboard_scenarios`.  The module-level default
for `requires_auth` is `True` (`module_data.get('requires_auth', True)`). -/
def genDashboardScenarios (st : PlannerState) (m : ModuleData) : PlannerState :=
  let requiresAuth := m.requires_auth.getD true
  let dependsOn : Option String := if requiresAuth then some "auth_001" else none
  m.pages.foldl (genDashPage dependsOn) st

/-- One settings-form iteration of `PlannerAgent._generate_profile_scenarios`. -/
def genProfileForm (page : Page) (dependsOn : Option String) (st : PlannerState)
    (form : Form) : PlannerState :=
  emit st "profile"
    { name := "Update " ++ form.id,
      description := "Test updating settings via " ++ form.id,
      «module» := "profile", type := .happy_path, priority := .medium,
      depends_on := dependsOn,
      steps :=
        [({ action := "navigate", target := page.url,
            description := "Go to settings" } : TestStep)] ++
        ((form.fields.filter (fun f => f.name ≠ "")).map fun f =>
          ({ action := "fill", target := "[name='" ++ f.name ++ "']",
             value := some "test_value", description := "Fill " ++ f.name } : TestStep)) ++
        [{ action := "click",
           target := "#" ++ form.id ++ " button[type='submit'], button:has-text('" ++
             (if form.submit_text = "" then "Save" else form.submit_text) ++ "')",
           description := "Submit form" },
         { action := "assert", target := "save_success",
           description := "Verify save successful" }] }

/-- The per-page body of `PlannerAgent._generate_profile_scenarios`.  The
page-level default for `requires_auth` is `True`. -/
def genProfilePage (st : PlannerState) (page : Page) : PlannerState :=
  let dependsOn : Option String :=
    if page.requires_auth.getD true then some "auth_001" else none
  if page.type = "settings" then
    let st := emit st "profile"
      { name := "View Settings", description := "Verify settings page loads",
        «module» := "profile", type := .happy_path, priority := .medium,
        depends_on := dependsOn,
        steps := [
          { action := "navigate", target := page.url, description := "Go to settings" },
          { action := "assert", target := "page_loaded", description := "Verify page loads" }] }
    page.forms.foldl (genProfileForm page dependsOn) st
  else if page.type = "profile" then
    emit st "profile"
      { name := "View Profile", description := "Verify profile page loads",
        «module» := "profile", type := .happy_path, priority := .medium,
        depends_on := dependsOn,
        steps := [
          { action := "navigate", target := page.url, description := "Go to profile" },
          { action := "assert", target := "page_loaded", description := "Verify page loads" },
          { action := "assert", target := "user_info_visible",
            description := "Verify user info displayed" }] }
  else st

/-- `PlannerAgent._generate_profile_scenarios`. -/
def genProfileScenarios (st : PlannerState) (m : ModuleData) : PlannerState :=
  m.pages.foldl genProfilePage st

/-- The per-page body of `PlannerAgent._generate_crud_scenarios`. -/
def genCrudPage (st : PlannerState) (page : Page) : PlannerState :=
  let dependsOn : Option String :=
    if page.requires_auth.getD true then some "auth_001" else none
  if page.type = "create" then
    let st := emit st "crud"
      { name := "Create New Item", description := "Test creating a new item",
        «module» := "crud", type := .happy_path, priority := .high, depends_on := dependsOn,
        steps :=
          [({ action := "navigate", target := page.url,
              description := "Go to create page" } : TestStep)] ++
          ((page.forms.flatMap fun form => form.fields.filter (fun f => f.name ≠ "")).map
            fun f =>
            ({ action := "fill", target := "[name='" ++ f.name ++ "']",
               value := some ("Test " ++ f.name),
               description := "Fill " ++ f.name } : TestStep)) ++
          [{ action := "click", target := "button[type='submit']",
             description := "Submit form" },
           { action := "assert", target := "create_success",
             description := "Verify item created" }] }
    emit st "crud"
      { name := "Create with Empty Form",
        description := "Test submitting empty create form",
        «module» := "crud", type := .edge_case, priority := .medium, depends_on := dependsOn,
        steps := [
          { action := "navigate", target := page.url, description := "Go to create page" },
          { action := "click", target := "button[type='submit']",
            description := "Submit empty form" },
          { action := "assert", target := "validation_error",
            description := "Verify validation errors shown" }] }
  else if page.type = "list" then
    emit st "crud"
      { name := "View List", description := "Test viewing list of items",
        «module» := "crud", type := .happy_path, priority := .high, depends_on := dependsOn,
        steps := [
          { action := "navigate", target := page.url, description := "Go to list page" },
          { action := "assert", target := "list_visible",
            description := "Verify list is displayed" }] }
  else if page.type = "edit" then
    emit st "crud"
      { name := "Edit Item", description := "Test editing an existing item",
        «module» := "crud", type := .happy_path, priority := .high, depends_on := dependsOn,
        steps := [
          { action := "navigate", target := page.url, description := "Go to edit page" },
          { action := "assert", target := "form_prefilled",
            description := "Verify form has existing data" },
          { action := "fill", target := "input:first-of-type",
            value := some "Updated Value", description := "Modify a field" },
          { action := "click", target := "button[type='submit']",
            description := "Submit changes" },
          { action := "assert", target := "update_success",
            description := "Verify update successful" }] }
  else st

/-- `PlannerAgent._generate_crud_scenarios`. -/
def genCrudScenarios (st : PlannerState) (m : ModuleData) : PlannerState :=
  m.pages.foldl genCrudPage st

/-- One form iteration of `PlannerAgent._generate_general_scenarios`. -/
def genGeneralForm (moduleName : String) (page : Page) (dependsOn : Option String)
    (st : PlannerState) (form : Form) : PlannerState :=
  emit st "gen"
    { name := "Submit " ++ form.id,
      description := "Test form submission on " ++ page.path,
      «module» := moduleName, type := .happy_path, priority := .medium,
      depends_on := dependsOn,
      steps :=
        [({ action := "navigate", target := page.url,
            description := "Go to page" } : TestStep)] ++
        ((form.fields.filter (fun f => f.name ≠ "")).map fun f =>
          ({ action := "fill", target := "[name='" ++ f.name ++ "']",
             value := some "test", description := "Fill " ++ f.name } : TestStep)) ++
        [{ action := "click", target := "button[type='submit']",
           description := "Submit form" },
         { action := "assert", target := "form_submitted",
           description := "Verify form processes" }] }

/-- The per-page body of `PlannerAgent._generate_general_scenarios`. -/
def genGeneralPage (moduleName : String) (st : PlannerState) (page : Page) :
    PlannerState :=
  let dependsOn : Option String :=
    if page.requires_auth.getD true then some "auth_001" else none
  let st := emit st "gen"
    { name := "View " ++ (if page.title = "" then page.path else page.title),
      description := "Test loading " ++ page.url,
      «module» := moduleName, type := .happy_path, priority := .low,
      depends_on := dependsOn,
      steps := [
        { action := "navigate", target := page.url, description := "Navigate to page" },
        { action := "assert", target := "page_loaded",
          description := "Verify page loads without errors" }] }
  page.forms.foldl (genGeneralForm moduleName page dependsOn) st

/-- `PlannerAgent._generate_general_scenarios`. -/
def genGeneralScenarios (moduleName : String) (st : PlannerState) (m : ModuleData) :
    PlannerState :=
  m.pages.foldl (genGeneralPage moduleName) st

/-- The module dispatch loop at the top of `PlannerAgent.generate_scenarios`. -/
def genModule (st : PlannerState) (entry : String × ModuleData) : PlannerState :=
  if entry.1 = "auth" then genAuthScenarios st entry.2
  else if entry.1 = "dashboard" then genDashboardScenarios st entry.2
  else if entry.1 = "profile" then genProfileScenarios st entry.2
  else if entry.1 = "crud" then genCrudScenarios st entry.2
  else genGeneralScenarios entry.1 st entry.2

/-- The full emission pass of `PlannerAgent.generate_scenarios`: the final
value of `self.scenarios` in emission order. -/
def plannerScenarios (appMap : AppMap) : List TestScenario :=
  (appMap.modules.foldl genModule { counter := 0, scenarios := [] }).scenarios

/-- Python dict lookup `self.modules.get(key, {})` on the app map's module
dict. -/
def lookupModule (mods : List (String × ModuleData)) (key : String) :
    Option ModuleData :=
  (mods.find? (fun p => decide (p.1 = key))).map (fun p => p.2)

/-- The value `self.modules.get(scenario.module, {}).get('requires_auth', False)`
used while grouping in `PlannerAgent.generate_scenarios`. -/
def moduleRequiresAuth (mods : List (String × ModuleData)) (key : String) : Bool :=
  match lookupModule mods key with
  | none => false
  | some md => md.requires_auth.getD false

/-- A value of the `modules_with_scenarios` dict built by
`PlannerAgent.generate_scenarios`.  Scenarios are kept as `TestScenario`
records; the source stores `scenario.to_dict()`, an injective rendering of
the same data. -/
structure ModuleGroup where
  name : String
  requires_auth : Bool
  scenarios : List TestScenario
  deriving Repr, DecidableEq

/-- One iteration of the grouping loop in `PlannerAgent.generate_scenarios`:
create the module entry on first sight (insertion order), then append the
scenario to its module's list. -/
def insertGrouped (mods : List (String × ModuleData))
    (acc : List (String × ModuleGroup)) (s : TestScenario) :
    List (String × ModuleGroup) :=
  if acc.any (fun p => decide (p.1 = s.module)) then
    acc.map (fun p =>
      if p.1 = s.module then (p.1, { p.2 with scenarios := p.2.scenarios ++ [s] })
      else p)
  else
    acc ++ [(s.module, { name := strTitle s.module,
                         requires_auth := moduleRequiresAuth mods s.module,
                         scenarios := [s] })]

/-- The return value of `PlannerAgent.generate_scenarios`. -/
structure Plan where
  base_url : String
  total_scenarios : Nat
  modules : List (String × ModuleGroup)
  deriving Repr

/-- `PlannerAgent.generate_scenarios`: run every module generator in
module-dict order, then group the emitted scenarios by their `module`
field. -/
def generateScenarios (appMap : AppMap) : Plan :=
  let scenarios := plannerScenarios appMap
  { base_url := appMap.base_url,
    total_scenarios := scenarios.length,
    modules := scenarios.foldl (insertGrouped appMap.modules) [] }

/-! ### Explorer: input selector synthesis (`explorer.py`) -/

/-- Python `s.split()[0]` guarded by a truthiness check on `s`: the first
whitespace-separated word.  (For a whitespace-only non-empty string the
Python indexing would raise; that case is unreachable from the claims and
is mapped to the empty string.) -/
def firstWord (s : String) : String :=
  ((s.split (fun c => c.isWhitespace)).filter (fun w => w ≠ "")).headD ""

/-- `ExplorerAgent._build_input_selector`: assemble the candidate selectors
in priority order and return the comma-joined list truncated to the first
three (`", ".join(selectors[:3])`), or `"input"` when no candidate exists. -/
def buildInputSelector (inpId inpName inpType inpClass : String) : String :=
  let selectors : List String :=
    (if inpId ≠ "" then ["#" ++ inpId] else []) ++
    (if inpName ≠ "" then
      ["input[name='" ++ inpName ++ "']", "[name='" ++ inpName ++ "']"] else []) ++
    (if inpType ≠ "" && inpClass ≠ "" then
      ["input[type='" ++ inpType ++ "']." ++ firstWord inpClass] else []) ++
    (if inpType ≠ "" then ["input[type='" ++ inpType ++ "']"] else [])
  if selectors.isEmpty then "input" else String.intercalate ", " (selectors.take 3)

/-! ### Explorer: bounded same-origin crawl (`explorer.py`)

The live browser is abstracted as a `CrawlEnv` oracle: URL parsing
(`urllib.parse`) and the per-page extraction results
(`page.goto` + `_extract_page_info` sub-extractors + `_extract_links`) are
environment data, while the crawl control flow, the page-record assembly,
page typing and module grouping are embedded from the source. -/

/-- The extraction results that `_extract_page_info` obtains from the live
page (everything except the fields the source computes itself). -/
structure ExtractedPage where
  title : String
  forms : List Form
  buttons : List Button
  inputs : List StandaloneInput
  nav_links : List NavLink
  modals : List Modal
  deriving Repr

/-- The crawl environment: URL functions from `urllib.parse` and the
per-URL outcome of `page.goto` plus element extraction.  `fetch u = none`
models a falsy `goto` response or any exception inside the `try` block of
`_explore_page` (the URL stays visited, nothing is recorded); `some`
carries the extracted page data and the raw `_extract_links` hrefs. -/
structure CrawlEnv where
  netloc : String → String
  urlpath : String → String
  urljoin : String → String → String
  fetch : String → Option (ExtractedPage × List String)

/-- `ExplorerAgent._detect_page_type`.  The `buttons` parameter is unused,
exactly as in the source. -/
def detectPageType (env : CrawlEnv) (url title : String) (forms : List Form)
    (_buttons : List Button) : String :=
  let path := (env.urlpath url).toLower
  let titleLower := title.toLower
  if ["/login", "/signin", "/sign-in", "/auth"].any (fun x => strContains path x) then
    "login"
  else if ["/register", "/signup", "/sign-up"].any (fun x => strContains path x) then
    "register"
  else if ["/forgot", "/reset", "/password"].any (fun x => strContains path x) then
    "password_reset"
  else if ["/dashboard", "/home", "/overview"].any (fun x => strContains path x) then
    "dashboard"
  else if path = "/" || path = "" then "landing"
  else if ["/settings", "/preferences", "/config"].any (fun x => strContains path x) then
    "settings"
  else if ["/profile", "/account", "/user"].any (fun x => strContains path x) then
    "profile"
  else if ["/create", "/new", "/add"].any (fun x => strContains path x) then "create"
  else if ["/edit", "/update", "/modify"].any (fun x => strContains path x) then "edit"
  else if ["/list", "/all", "/index"].any (fun x => strContains path x) then "list"
  else if ["/view", "/detail", "/show"].any (fun x => strContains path x) then "detail"
  else
    let formFields := forms.flatMap (fun form => form.fields.map (fun f => f.name.toLower))
    if ["email", "password", "username"].any (fun x => formFields.contains x) then
      if strContains titleLower "register" || strContains titleLower "sign up" then
        "register"
      else "login"
    else "general"

/-- `ExplorerAgent._requires_auth`.  The `title` parameter is unused,
exactly as in the source. -/
def pageRequiresAuth (env : CrawlEnv) (url : String) (_title : String) : Bool :=
  let path := (env.urlpath url).toLower
  let publicPaths := ["/login", "/signin", "/register", "/signup", "/forgot",
    "/reset", "/about", "/contact", "/pricing"]
  let authPaths := ["/dashboard", "/settings", "/profile", "/account", "/admin",
    "/create", "/edit"]
  if publicPaths.any (fun p => strContains path p) || path = "/" then false
  else if authPaths.any (fun p => strContains path p) then true
  else false

/-- The page record assembled at the end of `_extract_page_info`
(`"url": url`, `"path": urlparse(url).path or '/'`, computed type and
auth flag, extracted element lists). -/
def extractPageInfo (env : CrawlEnv) (url : String) (ext : ExtractedPage) : Page :=
  { url := url,
    path := (if env.urlpath url = "" then "/" else env.urlpath url),
    title := ext.title,
    type := detectPageType env url ext.title ext.forms ext.buttons,
    forms := ext.forms,
    buttons := ext.buttons,
    inputs := ext.inputs,
    nav_links := ext.nav_links,
    modals := ext.modals,
    requires_auth := some (pageRequiresAuth env url ext.title) }

/-- `ExplorerAgent._is_auth_page`. -/
def isAuthPage (page : Page) : Bool :=
  ["login", "register", "password_reset"].contains page.type

/-- The mutable crawl state of `ExplorerAgent`: `self.domain`,
`self.visited_urls` (a set, kept here in insertion order), `self.pages`
and `self.auth_pages`. -/
structure ExplorerState where
  domain : String
  visited : List String
  pages : List Page
  auth_pages : List String
  deriving Repr

/-- `ExplorerAgent._explore_page`, with recursion depth bounded by `fuel`
(the Python recursion is bounded only by the visited-set guard; every
theorem below holds for every fuel).  The body follows the source: skip
when visited, over budget or off-domain; mark visited; fetch; record the
page and auth URL; then resolve and recurse into each extracted link not
yet visited. -/
def explorePage (env : CrawlEnv) (maxPages : Nat) :
    Nat → ExplorerState → String → ExplorerState
  | 0, st, _ => st
  | fuel + 1, st, url =>
    if st.visited.contains url || maxPages ≤ st.visited.length then st
    else if env.netloc url ≠ st.domain then st
    else
      let st1 := { st with visited := st.visited ++ [url] }
      match env.fetch url with
      | none => st1
      | some (ext, links) =>
        let pi := extractPageInfo env url ext
        let st2 := { st1 with
          pages := st1.pages ++ [pi],
          auth_pages := if isAuthPage pi then st1.auth_pages ++ [url]
                        else st1.auth_pages }
        links.foldl (fun acc link =>
          let fullUrl := env.urljoin url link
          if acc.visited.contains fullUrl then acc
          else explorePage env maxPages fuel acc fullUrl) st2

/-- Python `base_url.rstrip('/')`. -/
def rstripSlash (s : String) : String :=
  String.mk ((s.data.reverse.dropWhile (fun c => c = '/')).reverse)

/-- The state after the crawl started by `ExplorerAgent.explore`:
`self.domain` is parsed from the constructor's `base_url` argument and the
crawl starts at `self.base_url = base_url.rstrip('/')`. -/
def exploreRun (env : CrawlEnv) (baseUrl : String) (maxPages fuel : Nat) :
    ExplorerState :=
  explorePage env maxPages fuel
    { domain := env.netloc baseUrl, visited := [], pages := [], auth_pages := [] }
    (rstripSlash baseUrl)

/-- The fixed type table of `ExplorerAgent._group_into_modules`. -/
def moduleMapping : List (String × List String) :=
  [("auth", ["login", "register", "password_reset"]),
   ("dashboard", ["dashboard", "landing"]),
   ("profile", ["profile", "settings"]),
   ("crud", ["create", "edit", "list", "detail"]),
   ("general", ["general"])]

/-- `ExplorerAgent._group_into_modules` (module entries are created only
for non-empty page groups, in table order). -/
def groupIntoModules (pages : List Page) : List (String × ModuleData) :=
  moduleMapping.foldl (fun acc entry =>
    let modulePages := pages.filter (fun p => entry.2.contains p.type)
    if modulePages.isEmpty then acc
    else acc ++ [(entry.1,
      { pages := modulePages,
        requires_auth := some (modulePages.any (fun p => p.requires_auth.getD false)) })])
    []

/-- The app map returned by `ExplorerAgent.explore`. -/
def exploreAppMap (env : CrawlEnv) (baseUrl : String) (maxPages fuel : Nat) : AppMap :=
  let st := exploreRun env baseUrl maxPages fuel
  { base_url := rstripSlash baseUrl,
    pages := st.pages,
    modules := groupIntoModules st.pages }

/-! ### Orchestrator retry loop (`test_sprite_agent`)

Embeds `should_fix` from `orchestrator.py` together with the only cycle of
the stage graph (`execute -> fix_tests -> execute`).  The outcomes of the
external tools (`testsprite_generate_code_and_execute`,
`testsprite_fix_test_code`) are environment parameters indexed by the
invocation number. -/

/-- The `test_results` dict fields that `should_fix` and `fix_tests_node`
read. -/
structure TestResults where
  exit_code : Int
  stdout : String
  stderr : String
  deriving Repr, DecidableEq

/-- The fields of the LangGraph `TestingState` involved in the retry loop
(`state.py`): `retries` and `max_retries` default to `0` and `3` through
`state.get`, `steps_completed` and `error_log` are concat-merged lists. -/
structure TestingState where
  steps_completed : List String
  error_log : List String
  retries : Nat
  max_retries : Nat
  test_results : Option TestResults
  deriving Repr

/-- `should_fix` in `orchestrator.py`: `"fix_tests"` iff the composite
exit code is non-zero and `retries < max_retries`, else `"report"`.
The exit code defaults to `0` when `test_results` is absent. -/
def shouldFix (state : TestingState) : String :=
  let exitCode := (state.test_results.map (fun r => r.exit_code)).getD 0
  if exitCode ≠ 0 ∧ state.retries < state.max_retries then "fix_tests" else "report"

/-- `execute_tests_node` (`nodes.py`): store the executor output and append
`"execute"` to `steps_completed`.  `res` is the tool result of this
invocation. -/
def executeTestsNode (st : TestingState) (res : TestResults) : TestingState :=
  { st with test_results := some res,
            steps_completed := st.steps_completed ++ ["execute"] }

/-- `fix_tests_node` (`nodes.py`): both the success and the failure branch
of the fix tool increment `retries`; only the success branch appends
`"fix_tests"` to `steps_completed`, the failure branch appends to
`error_log` instead. -/
def fixTestsNode (st : TestingState) (fixOk : Bool) : TestingState :=
  if fixOk then
    { st with retries := st.retries + 1,
              steps_completed := st.steps_completed ++ ["fix_tests"] }
  else
    { st with retries := st.retries + 1,
              error_log := st.error_log ++ ["Fix failed"] }

/-- The `execute -> (fix_tests -> execute)* -> report` loop of the compiled
graph in `build_graph`.  `execRes n` is the executor output of the `n`-th
`execute` invocation and `fixOk n` the success flag of the `n`-th fix.
Returns the state at the `report` edge together with the total number of
`execute` invocations; `none` models exhausting the recursion budget. -/
def execFixLoop (execRes : Nat → TestResults) (fixOk : Nat → Bool) :
    Nat → TestingState → Nat → Option (TestingState × Nat)
  | 0, _, _ => none
  | fuel + 1, st, execCount =>
    let n := execCount + 1
    let st1 := executeTestsNode st (execRes n)
    if shouldFix st1 = "fix_tests" then
      execFixLoop execRes fixOk fuel (fixTestsNode st1 (fixOk n)) n
    else some (st1, n)

/-- One full run of the stage graph of `build_graph`: the linear prefix
`bootstrap -> analyze -> prd`, the three plan stages joined by
`join_plans` (their relative completion order is unobservable; one fixed
order is recorded), the retry loop, then `report`. -/
def runGraph (execRes : Nat → TestResults) (fixOk : Nat → Bool)
    (maxRetries fuel : Nat) : Option (TestingState × Nat) :=
  let st0 : TestingState :=
    { steps_completed := ["bootstrap", "analyze", "prd", "frontend_plan",
        "backend_plan", "security_plan"],
      error_log := [], retries := 0, max_retries := maxRetries,
      test_results := none }
  match execFixLoop execRes fixOk fuel st0 0 with
  | none => none
  | some (st, n) =>
    some ({ st with steps_completed := st.steps_completed ++ ["report"] }, n)

/-- The terminal `Run.status` written by `run_agent_task` in
`test_sprite_agent/src/api_server.py`: `"completed"` when the graph stream
finishes, `"failed"` when it raises. -/
def runAgentStatus (execRes : Nat → TestResults) (fixOk : Nat → Bool)
    (maxRetries fuel : Nat) : String :=
  match runGraph execRes fixOk maxRetries fuel with
  | some _ => "completed"
  | none => "failed"

/-! ### Executor composite exit code (`test_sprite_agent/src/mcp_server/server.py`)

Embeds the result classification and the composite exit code at the end of
`testsprite_generate_code_and_execute`. -/

/-- The outcome of running one generated test in a subprocess. -/
inductive TestRunOutcome where
  | output (stdout : String)
  | timedOut
  | crashed (msg : String)
  deriving Repr

/-- The per-test entry written into `all_results`: marker scan of the
subprocess stdout, defaulting to `"passed"`; timeouts and exceptions are
recorded as `"failed"`. -/
def resultOfOutcome : TestRunOutcome → String
  | .output stdout =>
    if strContains stdout "[PASSED]" then "passed"
    else if strContains stdout "[FAILED]" then "failed"
    else if strContains stdout "[SKIPPED]" then "skipped"
    else "passed"
  | .timedOut => "failed"
  | .crashed _ => "failed"

/-- The composite exit code of `testsprite_generate_code_and_execute`:
`failed = sum(1 for r in all_results.values() if r == "failed")` and
`exit_code = 0 if failed == 0 else 1`. -/
def compositeExitCode (results : List String) : Int :=
  if results.count "failed" = 0 then 0 else 1

/-- The `all_results` values for a batch of test outcomes (`all_results`
maps each test id to its classification; `id`s are carried along). -/
def batchResults (outcomes : List (String × TestRunOutcome)) : List String :=
  outcomes.map (fun p => resultOfOutcome p.2)

/-! ### Scenario runner (`testbounty_agent/src/api_server.py`)

Embeds `execute_scenario` over a browser oracle and the scheduling logic of
`run_scenarios_task`.  The oracle's functions take the index of the current
step inside the scenario so that an evolving browser session can be
represented. -/

/-- The scenario result dict assembled by `execute_scenario`. -/
structure ExecResult where
  id : String
  name : String
  status : String
  steps_completed : List String
  error : Option String
  deriving Repr, DecidableEq

/-- A step-level exception: Playwright timeouts are caught separately from
generic exceptions in `execute_scenario`. -/
inductive StepFailure where
  | timeout (msg : String)
  | generic (msg : String)
  deriving Repr, DecidableEq

/-- The browser oracle for one `execute_scenario` call.  Each function
takes the index of the current step.  `navResult`/`waitNavResult` return
`some msg` when the underlying Playwright call raises a timeout with text
`msg`; `fillSelectorOk`/`clickSelectorOk` tell whether one candidate
selector resolves (and the element action succeeds) within its 3 s budget;
`errorSelectorVisible` answers the visibility probes of the
`error_message_visible` branch. -/
structure BrowserEnv where
  navResult : Nat → String → Option String
  fillSelectorOk : Nat → String → Bool
  clickSelectorOk : Nat → String → Bool
  waitNavResult : Nat → Option String
  pageTitle : Nat → String
  errorSelectorVisible : Nat → String → Bool

/-- One iteration of the step loop in `execute_scenario`.  The `assert`
branch is embedded exactly: only `page_loaded` can raise (the
`AssertionError` text is `"Page did not load"`), `url_changed` is `pass`,
`error_message_visible` probes the common error selectors but never fails,
and every other predicate falls through the `if/elif` chain as a no-op. -/
def runStep (env : BrowserEnv) (baseUrl : String) (idx : Nat) (step : TestStep) :
    Except StepFailure Unit :=
  if step.action = "navigate" then
    let url := if step.target.startsWith "http" then step.target
               else baseUrl ++ step.target
    match env.navResult idx url with
    | none => .ok ()
    | some m => .error (.timeout m)
  else if step.action = "fill" then
    let selectors := step.target.splitOn ", "
    if selectors.any (fun sel => env.fillSelectorOk idx sel.trim) then .ok ()
    else .error (.generic ("Could not find element: " ++ step.target))
  else if step.action = "click" then
    let selectors := step.target.splitOn ", "
    if selectors.any (fun sel => env.clickSelectorOk idx sel.trim) then .ok ()
    else .error (.generic ("Could not click element: " ++ step.target))
  else if step.action = "wait" then
    if step.target = "navigation" then
      match env.waitNavResult idx with
      | none => .ok ()
      | some m => .error (.timeout m)
    else .ok ()
  else if step.action = "assert" then
    if step.target = "page_loaded" then
      if env.pageTitle idx ≠ "" then .ok () else .error (.generic "Page did not load")
    else if step.target = "url_changed" then .ok ()
    else if step.target = "error_message_visible" then
      let errorSelectors := [".error", ".alert-danger", "[role='alert']",
        ".text-red", ".text-danger"]
      let _found := errorSelectors.any (env.errorSelectorVisible idx)
      .ok ()
    else .ok ()
  else .ok ()

/-- The step loop of `execute_scenario`: run steps in order, appending each
completed step's description; stop at the first exception, carrying the
descriptions completed so far. -/
def runStepsFrom (env : BrowserEnv) (baseUrl : String) :
    List TestStep → Nat → List String → Except (StepFailure × List String) (List String)
  | [], _, done => .ok done
  | step :: rest, idx, done =>
    match runStep env baseUrl idx step with
    | .ok _ => runStepsFrom env baseUrl rest (idx + 1) (done ++ [step.description])
    | .error e => .error (e, done)

/-- `execute_scenario`: all steps succeed gives `status="passed"`; a
Playwright timeout gives `status="failed"` with `error="Timeout: <msg>"`;
any other exception gives `status="failed"` with `error=str(e)`. -/
def executeScenario (env : BrowserEnv) (scenario : TestScenario)
    (baseUrl : String) : ExecResult :=
  match runStepsFrom env baseUrl scenario.steps 0 [] with
  | .ok done =>
    { id := scenario.id, name := scenario.name, status := "passed",
      steps_completed := done, error := none }
  | .error (.timeout m, done) =>
    { id := scenario.id, name := scenario.name, status := "failed",
      steps_completed := done, error := some ("Timeout: " ++ m) }
  | .error (.generic m, done) =>
    { id := scenario.id, name := scenario.name, status := "failed",
      steps_completed := done, error := some m }

/-- Python truthiness of `s.get("depends_on")`: set and non-empty. -/
def dependsOnTruthy (s : TestScenario) : Bool :=
  match s.depends_on with
  | some d => d ≠ ""
  | none => false

/-- The auth-scenario search at the top of `run_scenarios_task`: take the
first scenario with a truthy `depends_on` (the loop breaks after it, even
when the lookup fails) and resolve the referenced id among all scenarios. -/
def findAuthScenario (scenarios : List TestScenario) : Option TestScenario :=
  match scenarios.find? dependsOnTruthy with
  | none => none
  | some s => scenarios.find? (fun sc => decide (sc.id = s.depends_on.getD ""))

/-- Python dict assignment `results[key] = v` on an association list. -/
def upsert (results : List (String × ExecResult)) (key : String) (v : ExecResult) :
    List (String × ExecResult) :=
  if results.any (fun p => decide (p.1 = key)) then
    results.map (fun p => if p.1 = key then (key, v) else p)
  else results ++ [(key, v)]

/-- The fold function of the scenario loop in `run_scenarios_task`. -/
def runTaskStep (runOne : TestScenario → ExecResult) (auth : Option TestScenario)
    (results : List (String × ExecResult)) (s : TestScenario) :
    List (String × ExecResult) :=
  if (match auth with
      | some a => decide (s.id = a.id)
      | none => false) then results
  else upsert results s.id (runOne s)

def runScenariosTask (runOne : TestScenario → ExecResult)
    (scenarios : List TestScenario) : List (String × ExecResult) :=
  let auth := findAuthScenario scenarios
  let results0 : List (String × ExecResult) :=
    match auth with
    | some a => upsert [] a.id (runOne a)
    | none => []
  scenarios.foldl (runTaskStep runOne auth) results0

def pfxList : List String := ["auth", "dash", "profile", "crud", "gen"]

/-- Structural facts about the scenario at emission index `k`. -/
def GoodAt (k : Nat) (s : TestScenario) : Prop :=
  ∃ p, p ∈ pfxList ∧ s.id = p ++ "_" ++ pad3 (k + 1) ∧
    (s.depends_on = none ∨ s.depends_on = some "auth_001") ∧
    (p = "auth" → s.depends_on = none) ∧
    s.status = "pending"

def ScenariosGood (l : List TestScenario) : Prop :=
  ∀ k s, l.get? k = some s → GoodAt k s

def StInv (st : PlannerState) : Prop :=
  st.counter = st.scenarios.length ∧ ScenariosGood st.scenarios

def DepOk (d : Option String) : Prop := d = none ∨ d = some "auth_001"

def CrawlInv (env : CrawlEnv) (dom : String) (st : ExplorerState) : Prop :=
  st.domain = dom ∧ (∀ u ∈ st.visited, env.netloc u = dom) ∧
  (∀ p ∈ st.pages, p.url ∈ st.visited)

def idsSequentialPerPfx (ids : List String) : Bool :=
  pfxList.all fun p =>
    let family := ids.filter (fun i => (p ++ "_").data.isPrefixOf i.data)
    decide (family = (List.range family.length).map (fun i => p ++ "_" ++ pad3 (i + 1)))

def depsResolvedB (l : List TestScenario) : Bool :=
  l.enum.all fun pr =>
    match pr.2.depends_on with
    | none => true
    | some d => ((l.take pr.1).map (fun s => s.id)).contains d

def cLoginForm : Form :=
  { id := "login-form", selector := "#login-form", action := "/login",
    method := "POST",
    fields := [
      { type := "text", name := "username", id := "username", placeholder := "",
        required := true,
        selector := "#username, input[name='username'], [name='username']" },
      { type := "password", name := "password", id := "password", placeholder := "",
        required := true,
        selector := "#password, input[name='password'], [name='password']" }],
    submit_text := "Login", submit_selector := "#login-btn" }

def cLoginPage : Page :=
  { url := "http://localhost:3000/login", path := "/login", title := "Login",
    type := "login", forms := [cLoginForm], buttons := [], inputs := [],
    nav_links := [], modals := [], requires_auth := some false }

def cAuthMap : AppMap :=
  { base_url := "http://localhost:3000", pages := [cLoginPage],
    modules := [("auth", { pages := [cLoginPage], requires_auth := some false })] }

def cDashPage : Page :=
  { url := "http://localhost:3000/dashboard", path := "/dashboard",
    title := "Dashboard", type := "dashboard", forms := [], buttons := [],
    inputs := [], nav_links := [], modals := [], requires_auth := some true }

def cMixedMap : AppMap :=
  { base_url := "http://localhost:3000", pages := [cLoginPage, cDashPage],
    modules := [("auth", { pages := [cLoginPage], requires_auth := some false }),
                ("dashboard", { pages := [cDashPage], requires_auth := some true })] }

def cDashOnlyMap : AppMap :=
  { base_url := "http://localhost:3000", pages := [cDashPage],
    modules := [("dashboard", { pages := [cDashPage], requires_auth := some true })] }

def cScnA : TestScenario :=
  { id := "a", name := "Login", description := "", «module» := "auth",
    type := .happy_path, priority := .high, depends_on := none, steps := [] }

def cScnB : TestScenario :=
  { id := "b", name := "Dash", description := "", «module» := "dashboard",
    type := .happy_path, priority := .high, depends_on := some "a", steps := [] }

def cRunOne (s : TestScenario) : ExecResult :=
  if s.id = "a" then
    { id := "a", name := "Login", status := "failed", steps_completed := [],
      error := some "SelectorNotFound" }
  else
    { id := s.id, name := s.name, status := "passed", steps_completed := [],
      error := none }

def cBrowserEnv : BrowserEnv :=
  { navResult := fun _ _ => none,
    fillSelectorOk := fun _ _ => true,
    clickSelectorOk := fun _ _ => true,
    waitNavResult := fun _ => none,
    pageTitle := fun _ => "",
    errorSelectorVisible := fun _ _ => false }

def cValidationScn : TestScenario :=
  { id := "crud_002", name := "Create with Empty Form", description := "",
    «module» := "crud", type := .edge_case, priority := .medium, depends_on := none,
    steps := [{ action := "assert", target := "validation_error",
                description := "Verify validation errors shown" }] }

def cPageLoadedScn : TestScenario :=
  { id := "dash_001", name := "View Dashboard", description := "",
    «module» := "dashboard", type := .happy_path, priority := .high,
    depends_on := none,
    steps := [{ action := "assert", target := "page_loaded",
                description := "Verify page loads" }] }

/-- A constantly failing executor result, for the C1 witness. -/
def cExecRes : Nat → TestResults :=
  fun _ => { exit_code := 1, stdout := "", stderr := "" }

/-- A constantly succeeding fix tool, for the C1 witness. -/
def cFixOk : Nat → Bool := fun _ => true

/-- A placeholder scenario used only as an `Option.getD` default. -/
def cDummyScn : TestScenario :=
  { id := "", name := "", description := "", «module» := "",
    type := .happy_path, priority := .high, depends_on := none, steps := [] }

/-- The first scenario of the plan for `cMixedMap`, for the C3 witness. -/
def c3Scn : TestScenario :=
  ((plannerScenarios cMixedMap).get? 0).getD cDummyScn

/-! ### Theorems

Helper lemmas first (planner emission invariant, decimal-representation
facts, grouping-fold lemmas, runner lemmas, crawl invariant), then one
theorem per claim with its witness or counterexample. -/

lemma stInv_emit {st : PlannerState} {p : String} {b : ScenarioBody}
    (hp : p ∈ pfxList)
    (hdep : b.depends_on = none ∨ b.depends_on = some "auth_001")
    (hauth : p = "auth" → b.depends_on = none)
    (h : StInv st) : StInv (emit st p b) := by
  obtain ⟨hc, hg⟩ := h
  refine ⟨by simp [emit, nextId, hc], ?_⟩
  intro k s hk
  simp only [emit, nextId] at hk
  rcases lt_trichotomy k st.scenarios.length with hlt | heq | hgt
  · rw [List.get?_append hlt] at hk
    exact hg k s hk
  · subst heq
    rw [List.get?_append_right (le_refl _)] at hk
    simp at hk
    subst hk
    exact ⟨p, hp, by simp [hc], hdep, hauth, rfl⟩
  · rw [List.get?_append_right (by omega)] at hk
    rw [List.get?_eq_none.mpr (by simp; omega)] at hk
    exact absurd hk (by simp)

lemma stInv_foldl {α : Type} {f : PlannerState → α → PlannerState}
    (hf : ∀ st a, StInv st → StInv (f st a)) :
    ∀ (l : List α) (st : PlannerState), StInv st → StInv (l.foldl f st) := by
  intro l
  induction l with
  | nil => intro st h; exact h
  | cons a t ih => intro st h; exact ih _ (hf st a h)

lemma stInv_genAuthPage (st : PlannerState) (page : Page) (h : StInv st) :
    StInv (genAuthPage st page) := by
  unfold genAuthPage
  split
  · exact stInv_emit (by simp [pfxList]) (Or.inl rfl) (fun _ => rfl)
      (stInv_emit (by simp [pfxList]) (Or.inl rfl) (fun _ => rfl)
        (stInv_emit (by simp [pfxList]) (Or.inl rfl) (fun _ => rfl)
          (stInv_emit (by simp [pfxList]) (Or.inl rfl) (fun _ => rfl) h)))
  split
  · exact stInv_emit (by simp [pfxList]) (Or.inl rfl) (fun _ => rfl) h
  · exact h

lemma stInv_genAuthScenarios (st : PlannerState) (m : ModuleData) (h : StInv st) :
    StInv (genAuthScenarios st m) :=
  stInv_foldl stInv_genAuthPage m.pages st h

lemma stInv_genDashButton (page : Page) (dependsOn : Option String)
    (hdep : DepOk dependsOn) (st : PlannerState) (btn : Button) (h : StInv st) :
    StInv (genDashButton page dependsOn st btn) := by
  unfold genDashButton
  split
  · exact stInv_emit (by simp [pfxList]) hdep (by simp [pfxList]) h
  · exact h

lemma stInv_genDashPage (dependsOn : Option String) (hdep : DepOk dependsOn)
    (st : PlannerState) (page : Page) (h : StInv st) :
    StInv (genDashPage dependsOn st page) := by
  unfold genDashPage
  split
  · exact stInv_foldl (fun st2 btn h2 => stInv_genDashButton page dependsOn hdep st2 btn h2)
      page.buttons _ (stInv_emit (by simp [pfxList]) hdep (by simp [pfxList]) h)
  split
  · exact stInv_foldl (fun st2 link h2 => by
      unfold genDashNavLink
      split
      · exact stInv_emit (by simp [pfxList]) (Or.inl rfl) (by simp [pfxList]) h2
      · exact h2)
      page.nav_links _ (stInv_emit (by simp [pfxList]) (Or.inl rfl) (by simp [pfxList]) h)
  · exact h

lemma stInv_genDashboardScenarios (st : PlannerState) (m : ModuleData) (h : StInv st) :
    StInv (genDashboardScenarios st m) := by
  unfold genDashboardScenarios
  apply stInv_foldl (fun st2 page h2 => stInv_genDashPage _ ?_ st2 page h2) m.pages st h
  split
  · exact Or.inr rfl
  · exact Or.inl rfl

lemma stInv_genProfilePage (st : PlannerState) (page : Page) (h : StInv st) :
    StInv (genProfilePage st page) := by
  rcases Bool.eq_false_or_eq_true (page.requires_auth.getD true) with hra | hra <;>
    simp only [genProfilePage, hra, if_true, if_false, Bool.false_eq_true] <;>
  · split
    · refine stInv_foldl (fun st2 form h2 => ?_) page.forms _
        (stInv_emit (by simp [pfxList]) (by simp [DepOk]) (by simp) h)
      simp only [genProfileForm]
      exact stInv_emit (by simp [pfxList]) (by simp [DepOk]) (by simp) h2
    split
    · exact stInv_emit (by simp [pfxList]) (by simp [DepOk]) (by simp) h
    · exact h

lemma stInv_genCrudPage (st : PlannerState) (page : Page) (h : StInv st) :
    StInv (genCrudPage st page) := by
  rcases Bool.eq_false_or_eq_true (page.requires_auth.getD true) with hra | hra <;>
    simp only [genCrudPage, hra, if_true, if_false, Bool.false_eq_true] <;>
  · split
    · exact stInv_emit (by simp [pfxList]) (by simp [DepOk]) (by simp)
        (stInv_emit (by simp [pfxList]) (by simp [DepOk]) (by simp) h)
    split
    · exact stInv_emit (by simp [pfxList]) (by simp [DepOk]) (by simp) h
    split
    · exact stInv_emit (by simp [pfxList]) (by simp [DepOk]) (by simp) h
    · exact h

lemma stInv_genGeneralPage (moduleName : String) (st : PlannerState) (page : Page)
    (h : StInv st) : StInv (genGeneralPage moduleName st page) := by
  rcases Bool.eq_false_or_eq_true (page.requires_auth.getD true) with hra | hra <;>
    simp only [genGeneralPage, hra, if_true, if_false, Bool.false_eq_true] <;>
  · refine stInv_foldl (fun st2 form h2 => ?_) page.forms _
      (stInv_emit (by simp [pfxList]) (by simp [DepOk]) (by simp) h)
    simp only [genGeneralForm]
    exact stInv_emit (by simp [pfxList]) (by simp [DepOk]) (by simp) h2

lemma stInv_genModule (st : PlannerState) (entry : String × ModuleData) (h : StInv st) :
    StInv (genModule st entry) := by
  unfold genModule
  split
  · exact stInv_genAuthScenarios st entry.2 h
  split
  · exact stInv_genDashboardScenarios st entry.2 h
  split
  · exact stInv_foldl stInv_genProfilePage entry.2.pages st h
  split
  · exact stInv_foldl stInv_genCrudPage entry.2.pages st h
  · exact stInv_foldl (stInv_genGeneralPage entry.1) entry.2.pages st h

lemma plannerScenarios_good (appMap : AppMap) : ScenariosGood (plannerScenarios appMap) := by
  have h0 : StInv { counter := 0, scenarios := [] } := by
    refine ⟨rfl, ?_⟩
    intro k s hk
    simp at hk
  exact (stInv_foldl stInv_genModule appMap.modules _ h0).2

lemma plannerScenarios_status (appMap : AppMap) :
    ∀ t ∈ plannerScenarios appMap, t.status = "pending" := by
  intro t ht
  obtain ⟨k, hk⟩ := List.get?_of_mem ht
  obtain ⟨_, _, _, _, _, hst⟩ := plannerScenarios_good appMap k t hk
  exact hst

lemma toDigitsCore_length_lower :
    ∀ (f n k : Nat) (l : List Char), 10 ^ k ≤ n → n < 10 ^ f →
      k + 1 + l.length ≤ (Nat.toDigitsCore 10 f n l).length := by
  intro f
  induction f with
  | zero =>
    intro n k l hk hf
    simp only [pow_zero, Nat.lt_one_iff] at hf
    subst hf
    have : (0:Nat) < 10 ^ k := Nat.pos_pow_of_pos k (by norm_num)
    omega
  | succ f ih =>
    intro n k l hk hf
    simp only [Nat.toDigitsCore]
    split
    · next hdiv =>
      have hn : n < 10 := (Nat.div_eq_zero_iff (by norm_num)).mp hdiv
      have hk0 : k = 0 := by
        by_contra hne
        have : 10 ≤ 10 ^ k := Nat.le_self_pow hne 10
        omega
      subst hk0
      simp
      omega
    · next hdiv =>
      have hpos : n / 10 ≠ 0 := hdiv
      have hlt : n / 10 < 10 ^ f := by
        rw [Nat.div_lt_iff_lt_mul (by norm_num)]
        calc n < 10 ^ (f + 1) := hf
        _ = 10 ^ f * 10 := by ring
      cases k with
      | zero =>
        have := ih (n / 10) 0 ((n % 10).digitChar :: l) (by omega) hlt
        simp at this ⊢
        omega
      | succ k =>
        have hk2 : 10 ^ k ≤ n / 10 := by
          rw [Nat.le_div_iff_mul_le (by norm_num)]
          calc 10 ^ k * 10 = 10 ^ (k+1) := by ring
          _ ≤ n := hk
        have := ih (n / 10) k ((n % 10).digitChar :: l) hk2 hlt
        simp at this ⊢
        omega

lemma toDigitsCore_head_ne_zero :
    ∀ (f n : Nat) (l : List Char) (c : Char) (rest : List Char), n ≠ 0 → n < 10 ^ f →
      Nat.toDigitsCore 10 f n l = c :: rest → c ≠ '0' := by
  intro f
  induction f with
  | zero =>
    intro n l c rest hn hf
    simp only [pow_zero, Nat.lt_one_iff] at hf
    exact absurd hf hn
  | succ f ih =>
    intro n l c rest hn hf heq
    simp only [Nat.toDigitsCore] at heq
    split at heq
    · next hdiv =>
      have hn10 : n < 10 := (Nat.div_eq_zero_iff (by norm_num)).mp hdiv
      have hmod : n % 10 = n := Nat.mod_eq_of_lt hn10
      rw [hmod] at heq
      have hc : c = n.digitChar := by
        cases heq
        rfl
      subst hc
      interval_cases n <;> simp_all <;> decide
    · next hdiv =>
      have hlt : n / 10 < 10 ^ f := by
        rw [Nat.div_lt_iff_lt_mul (by norm_num)]
        calc n < 10 ^ (f + 1) := hf
        _ = 10 ^ f * 10 := by ring
      exact ih (n / 10) _ c rest hdiv hlt heq

lemma nat_lt_ten_pow_succ (n : Nat) : n < 10 ^ (n + 1) :=
  lt_of_lt_of_le (Nat.lt_pow_self (by norm_num) n)
    (Nat.pow_le_pow_right (by norm_num) (Nat.le_succ n))

lemma repr_length_lower (n k : Nat) (h : 10 ^ k ≤ n) : k + 1 ≤ (Nat.repr n).length := by
  have := toDigitsCore_length_lower (n + 1) n k [] h (nat_lt_ten_pow_succ n)
  simpa [Nat.repr, Nat.toDigits, String.length, List.asString] using this

lemma repr_head_ne_zero (n : Nat) (hn : n ≠ 0) (c : Char) (rest : List Char)
    (h : (Nat.repr n).data = c :: rest) : c ≠ '0' := by
  apply toDigitsCore_head_ne_zero (n + 1) n [] c rest hn (nat_lt_ten_pow_succ n)
  simpa [Nat.repr, Nat.toDigits, List.asString] using h

lemma repr_length_pos (n : Nat) : 1 ≤ (Nat.repr n).length := by
  rcases Nat.eq_zero_or_pos n with rfl | hn
  · decide
  · exact le_trans (by norm_num) (repr_length_lower n 0 (by simpa using hn))

lemma toString_nat_eq_repr (n : Nat) : toString n = Nat.repr n := rfl

lemma pad3_eq_one : ∀ c : Nat, pad3 c = "001" → c = 1 := by
  intro c h
  unfold pad3 at h
  rw [toString_nat_eq_repr] at h
  simp only [] at h
  rcases eq_or_ne c 0 with rfl | hc0
  · exact absurd h (by decide)
  split at h
  · next hlt =>
    have hd := congrArg String.data h
    rw [String.data_append] at hd
    have hmk : (String.mk (List.replicate (3 - (Nat.repr c).length) '0')).data
        = List.replicate (3 - (Nat.repr c).length) '0' := rfl
    rw [hmk] at hd
    have h001 : ("001" : String).data = ['0', '0', '1'] := rfl
    rw [h001] at hd
    have hpos := repr_length_pos c
    interval_cases hL : (Nat.repr c).length
    · -- length 1
      have h2 : List.replicate (3 - 1) '0' = ['0', '0'] := rfl
      rw [h2] at hd
      have htail : (Nat.repr c).data = ['1'] := by
        have : ['0', '0'] ++ (Nat.repr c).data = ['0', '0'] ++ ['1'] := hd
        exact List.append_cancel_left this
      have hc10 : c < 10 := by
        by_contra hge
        have := repr_length_lower c 1 (by omega)
        omega
      interval_cases c <;> first | rfl | exact absurd htail (by decide)
    · -- length 2
      have h1 : List.replicate (3 - 2) '0' = ['0'] := rfl
      rw [h1] at hd
      have htail : (Nat.repr c).data = ['0', '1'] := by
        have : ['0'] ++ (Nat.repr c).data = ['0'] ++ ['0', '1'] := hd
        exact List.append_cancel_left this
      exact absurd rfl (repr_head_ne_zero c hc0 '0' ['1'] htail)
  · next hge =>
    have hd := congrArg String.data h
    have h001 : ("001" : String).data = ['0', '0', '1'] := rfl
    rw [h001] at hd
    exact absurd rfl (repr_head_ne_zero c hc0 '0' ['0', '1'] hd)

lemma pfx_append_eq_auth001 {p x : String} (hp : p ∈ pfxList)
    (h : p ++ "_" ++ x = "auth_001") : p = "auth" ∧ x = "001" := by
  have hd := congrArg String.data h
  rw [String.data_append, String.data_append] at hd
  simp only [pfxList, List.mem_cons, List.not_mem_nil, or_false] at hp
  rcases hp with rfl | rfl | rfl | rfl | rfl
  · refine ⟨rfl, ?_⟩
    have hx : x.data = ['0', '0', '1'] := by
      have h1 : ("auth" : String).data = ['a', 'u', 't', 'h'] := rfl
      have h2 : ("_" : String).data = ['_'] := rfl
      have h3 : ("auth_001" : String).data = ['a', 'u', 't', 'h', '_', '0', '0', '1'] := rfl
      rw [h1, h2, h3] at hd
      simpa using hd
    exact String.ext (by rw [hx])
  all_goals
    exfalso
    have hh := congrArg List.head? hd
    simp at hh

lemma good_id_auth001 {l : List TestScenario} (hg : ScenariosGood l) {j : Nat}
    {s : TestScenario} (hjs : l.get? j = some s) (hid : s.id = "auth_001") : j = 0 := by
  obtain ⟨p, hp, hpid, _, _, _⟩ := hg j s hjs
  rw [hid] at hpid
  have := pad3_eq_one (j + 1) (pfx_append_eq_auth001 hp hpid.symm).2
  omega

lemma insertGrouped_cons_ne (mods : List (String × ModuleData)) (e : String × ModuleGroup)
    (rest : List (String × ModuleGroup)) (s : TestScenario) (hne : e.1 ≠ s.module) :
    insertGrouped mods (e :: rest) s = e :: insertGrouped mods rest s := by
  unfold insertGrouped
  simp only [List.any_cons, decide_eq_true_eq, hne, decide_False, Bool.false_or]
  split
  · simp [hne]
  · simp

lemma insertGrouped_cons_eq (mods : List (String × ModuleData)) (e : String × ModuleGroup)
    (rest : List (String × ModuleGroup)) (s : TestScenario) (heq : e.1 = s.module)
    (hrest : ∀ p ∈ rest, p.1 ≠ s.module) :
    insertGrouped mods (e :: rest) s
      = (e.1, { e.2 with scenarios := e.2.scenarios ++ [s] }) :: rest := by
  unfold insertGrouped
  have hany : ((e :: rest).any (fun p => decide (p.1 = s.module))) = true := by
    simp [heq]
  simp only [hany, if_true, List.map_cons]
  rw [if_pos heq]
  congr 1
  calc List.map (fun p => if p.1 = s.module
          then (p.1, { p.2 with scenarios := p.2.scenarios ++ [s] }) else p) rest
      = List.map id rest :=
        List.map_congr_left (fun p hp => by rw [if_neg (hrest p hp)]; rfl)
    _ = rest := List.map_id rest

lemma insertGrouped_keys (mods : List (String × ModuleData))
    (acc : List (String × ModuleGroup)) (s : TestScenario) :
    (insertGrouped mods acc s).map Prod.fst
      = if acc.any (fun p => decide (p.1 = s.module)) then acc.map Prod.fst
        else acc.map Prod.fst ++ [s.module] := by
  unfold insertGrouped
  split
  · rw [List.map_map]
    apply List.map_congr_left
    intro p _
    dsimp
    split <;> rfl
  · simp

lemma insertGrouped_keys_nodup (mods : List (String × ModuleData))
    (acc : List (String × ModuleGroup)) (s : TestScenario)
    (h : (acc.map Prod.fst).Nodup) :
    ((insertGrouped mods acc s).map Prod.fst).Nodup := by
  rw [insertGrouped_keys]
  split
  · exact h
  · next habs =>
    have : s.module ∉ acc.map Prod.fst := by
      intro hmem
      obtain ⟨p, hp, hp2⟩ := List.mem_map.mp hmem
      exact habs (List.any_eq_true.mpr ⟨p, hp, by simp [hp2]⟩)
    simp [List.nodup_append, h, this]

lemma insertGrouped_module_eq (mods : List (String × ModuleData))
    (acc : List (String × ModuleGroup)) (s : TestScenario)
    (processed : List TestScenario)
    (h : ∀ e ∈ acc, ∀ t ∈ e.2.scenarios, t.module = e.1 ∧ t ∈ processed) :
    ∀ e ∈ insertGrouped mods acc s, ∀ t ∈ e.2.scenarios,
      t.module = e.1 ∧ t ∈ processed ++ [s] := by
  intro e he t ht
  unfold insertGrouped at he
  split at he
  · obtain ⟨p, hp, hpe⟩ := List.mem_map.mp he
    by_cases hpm : p.1 = s.module
    · rw [if_pos hpm] at hpe
      subst hpe
      simp only [List.mem_append, List.mem_singleton] at ht
      rcases ht with ht | rfl
      · obtain ⟨h1, h2⟩ := h p hp t ht
        exact ⟨h1, by simp [h2]⟩
      · exact ⟨hpm.symm, by simp⟩
    · rw [if_neg hpm] at hpe
      subst hpe
      obtain ⟨h1, h2⟩ := h p hp t ht
      exact ⟨h1, by simp [h2]⟩
  · simp only [List.mem_append, List.mem_singleton] at he
    rcases he with he | rfl
    · obtain ⟨h1, h2⟩ := h e he t ht
      exact ⟨h1, by simp [h2]⟩
    · simp only [List.mem_singleton] at ht
      subst ht
      exact ⟨rfl, by simp⟩

lemma insertGrouped_sum (mods : List (String × ModuleData)) (s : TestScenario) :
    ∀ (acc : List (String × ModuleGroup)), (acc.map Prod.fst).Nodup →
      ((insertGrouped mods acc s).map (fun p => p.2.scenarios.length)).sum
        = ((acc.map (fun p => p.2.scenarios.length)).sum) + 1 := by
  intro acc
  induction acc with
  | nil => intro _; simp [insertGrouped]
  | cons e rest ih =>
    intro hnd
    have hnd2 := hnd
    simp only [List.map_cons, List.nodup_cons] at hnd2
    by_cases heq : e.1 = s.module
    · have hrest : ∀ p ∈ rest, p.1 ≠ s.module := by
        intro p hp hcon
        exact hnd2.1 (heq ▸ hcon ▸ List.mem_map_of_mem Prod.fst hp)
      rw [insertGrouped_cons_eq mods e rest s heq hrest]
      simp [Nat.add_assoc, Nat.add_comm, Nat.add_left_comm]
    · rw [insertGrouped_cons_ne mods e rest s heq]
      simp only [List.map_cons, List.sum_cons, ih hnd2.2]
      omega

lemma insertGrouped_covers_old (mods : List (String × ModuleData))
    (acc : List (String × ModuleGroup)) (s : TestScenario) :
    ∀ e ∈ acc, ∃ e2, e2 ∈ insertGrouped mods acc s ∧ e2.1 = e.1 ∧
      ∀ t ∈ e.2.scenarios, t ∈ e2.2.scenarios := by
  intro e he
  unfold insertGrouped
  split
  · refine ⟨if e.1 = s.module then (e.1, { e.2 with scenarios := e.2.scenarios ++ [s] })
      else e, List.mem_map.mpr ⟨e, he, by split <;> simp_all⟩, ?_, ?_⟩
    · split <;> rfl
    · intro t ht
      split <;> simp [ht]
  · exact ⟨e, by simp [he], rfl, fun t ht => ht⟩

lemma insertGrouped_covers_new (mods : List (String × ModuleData))
    (acc : List (String × ModuleGroup)) (s : TestScenario) :
    ∃ e, e ∈ insertGrouped mods acc s ∧ e.1 = s.module ∧ s ∈ e.2.scenarios := by
  unfold insertGrouped
  split
  · next hpres =>
    obtain ⟨p, hp, hpm⟩ := List.any_eq_true.mp hpres
    simp only [decide_eq_true_eq] at hpm
    refine ⟨(p.1, { p.2 with scenarios := p.2.scenarios ++ [s] }), ?_, hpm, by simp⟩
    have : (if p.1 = s.module then (p.1, { p.2 with scenarios := p.2.scenarios ++ [s] })
        else p) = (p.1, { p.2 with scenarios := p.2.scenarios ++ [s] }) := by
      rw [if_pos hpm]
    exact this ▸ List.mem_map_of_mem _ hp
  · exact ⟨(s.module,
      { name := strTitle s.module,
        requires_auth := moduleRequiresAuth mods s.module, scenarios := [s] }),
      by simp, rfl, by simp⟩

lemma grouping_fold_keys_nodup (mods : List (String × ModuleData)) :
    ∀ (l : List TestScenario) (acc : List (String × ModuleGroup)),
      (acc.map Prod.fst).Nodup →
      ((l.foldl (insertGrouped mods) acc).map Prod.fst).Nodup := by
  intro l
  induction l with
  | nil => intro acc h; exact h
  | cons s rest ih =>
    intro acc h
    exact ih _ (insertGrouped_keys_nodup mods acc s h)

lemma grouping_fold_module_eq (mods : List (String × ModuleData)) :
    ∀ (l processed : List TestScenario) (acc : List (String × ModuleGroup)),
      (∀ e ∈ acc, ∀ t ∈ e.2.scenarios, t.module = e.1 ∧ t ∈ processed) →
      ∀ e ∈ l.foldl (insertGrouped mods) acc, ∀ t ∈ e.2.scenarios,
        t.module = e.1 ∧ t ∈ processed ++ l := by
  intro l
  induction l with
  | nil =>
    intro processed acc h e he t ht
    simpa using h e he t ht
  | cons s rest ih =>
    intro processed acc h e he t ht
    have step := insertGrouped_module_eq mods acc s processed h
    have := ih (processed ++ [s]) _ step e he t ht
    simpa [List.append_assoc] using this

lemma grouping_fold_sum (mods : List (String × ModuleData)) :
    ∀ (l : List TestScenario) (acc : List (String × ModuleGroup)),
      (acc.map Prod.fst).Nodup →
      ((l.foldl (insertGrouped mods) acc).map (fun p => p.2.scenarios.length)).sum
        = (acc.map (fun p => p.2.scenarios.length)).sum + l.length := by
  intro l
  induction l with
  | nil => intro acc h; simp
  | cons s rest ih =>
    intro acc h
    rw [List.foldl_cons, ih _ (insertGrouped_keys_nodup mods acc s h),
      insertGrouped_sum mods s acc h]
    simp
    omega

lemma grouping_fold_covers_old (mods : List (String × ModuleData)) :
    ∀ (l : List TestScenario) (acc : List (String × ModuleGroup)),
      ∀ e ∈ acc, ∃ e2, e2 ∈ l.foldl (insertGrouped mods) acc ∧ e2.1 = e.1 ∧
        ∀ t ∈ e.2.scenarios, t ∈ e2.2.scenarios := by
  intro l
  induction l with
  | nil => intro acc e he; exact ⟨e, he, rfl, fun t ht => ht⟩
  | cons s rest ih =>
    intro acc e he
    obtain ⟨e1, he1, hk1, hs1⟩ := insertGrouped_covers_old mods acc s e he
    obtain ⟨e2, he2, hk2, hs2⟩ := ih (insertGrouped mods acc s) e1 he1
    exact ⟨e2, he2, hk2.trans hk1, fun t ht => hs2 t (hs1 t ht)⟩

lemma grouping_fold_covers_all (mods : List (String × ModuleData)) :
    ∀ (l : List TestScenario) (acc : List (String × ModuleGroup)), ∀ t ∈ l,
      ∃ e, e ∈ l.foldl (insertGrouped mods) acc ∧ e.1 = t.module ∧
        t ∈ e.2.scenarios := by
  intro l
  induction l with
  | nil => intro acc t ht; exact absurd ht (List.not_mem_nil t)
  | cons s rest ih =>
    intro acc t ht
    rcases List.mem_cons.mp ht with rfl | ht
    · obtain ⟨e1, he1, hk1, hs1⟩ := insertGrouped_covers_new mods acc t
      obtain ⟨e2, he2, hk2, hs2⟩ := grouping_fold_covers_old mods rest _ e1 he1
      exact ⟨e2, he2, hk2.trans hk1, hs2 t hs1⟩
    · exact ih _ t ht

lemma resultOfOutcome_cases (o : TestRunOutcome) :
    resultOfOutcome o = "passed" ∨ resultOfOutcome o = "failed" ∨
      resultOfOutcome o = "skipped" := by
  cases o with
  | output s =>
    simp only [resultOfOutcome]
    split
    · exact Or.inl rfl
    split
    · exact Or.inr (Or.inl rfl)
    split
    · exact Or.inr (Or.inr rfl)
    · exact Or.inl rfl
  | timedOut => exact Or.inr (Or.inl rfl)
  | crashed m => exact Or.inr (Or.inl rfl)

lemma upsert_mem (results : List (String × ExecResult)) (key : String) (v : ExecResult) :
    ∀ pr ∈ upsert results key v, pr ∈ results ∨ pr = (key, v) := by
  intro pr hpr
  unfold upsert at hpr
  split at hpr
  · obtain ⟨q, hq, hq2⟩ := List.mem_map.mp hpr
    by_cases hk : q.1 = key
    · rw [if_pos hk] at hq2
      exact Or.inr hq2.symm
    · rw [if_neg hk] at hq2
      exact Or.inl (hq2 ▸ hq)
  · rcases List.mem_append.mp hpr with h | h
    · exact Or.inl h
    · exact Or.inr (List.mem_singleton.mp h)

lemma upsert_key_mem (results : List (String × ExecResult)) (key : String)
    (v : ExecResult) : ∃ pr ∈ upsert results key v, pr.1 = key := by
  unfold upsert
  split
  · next hpres =>
    obtain ⟨q, hq, hqk⟩ := List.any_eq_true.mp hpres
    simp only [decide_eq_true_eq] at hqk
    refine ⟨(key, v), ?_, rfl⟩
    have hmem := List.mem_map_of_mem (fun p => if p.1 = key then (key, v) else p) hq
    simpa [hqk] using hmem
  · exact ⟨(key, v), by simp, rfl⟩

lemma upsert_keys_preserved (results : List (String × ExecResult)) (key : String)
    (v : ExecResult) : ∀ pr ∈ results, ∃ q ∈ upsert results key v, q.1 = pr.1 := by
  intro pr hpr
  unfold upsert
  split
  · refine ⟨if pr.1 = key then (key, v) else pr,
      List.mem_map.mpr ⟨pr, hpr, rfl⟩, ?_⟩
    split
    · next hk => exact hk.symm
    · rfl
  · exact ⟨pr, by simp [hpr], rfl⟩

lemma runTaskStep_cases (runOne : TestScenario → ExecResult)
    (auth : Option TestScenario) (r : List (String × ExecResult)) (s : TestScenario) :
    (runTaskStep runOne auth r s = r ∧ ∃ a, auth = some a ∧ s.id = a.id) ∨
    runTaskStep runOne auth r s = upsert r s.id (runOne s) := by
  unfold runTaskStep
  cases auth with
  | none => exact Or.inr (by simp)
  | some a =>
    by_cases hk : s.id = a.id
    · exact Or.inl ⟨by simp [hk], a, rfl, hk⟩
    · exact Or.inr (by simp [hk])

lemma runTaskStep_pres_keys (runOne : TestScenario → ExecResult)
    (auth : Option TestScenario) (r : List (String × ExecResult)) (s : TestScenario) :
    ∀ pr ∈ r, ∃ q ∈ runTaskStep runOne auth r s, q.1 = pr.1 := by
  intro pr hpr
  rcases runTaskStep_cases runOne auth r s with ⟨heq, _⟩ | heq <;> rw [heq]
  · exact ⟨pr, hpr, rfl⟩
  · exact upsert_keys_preserved r s.id (runOne s) pr hpr

lemma runTaskFold_keys_preserved (runOne : TestScenario → ExecResult)
    (auth : Option TestScenario) :
    ∀ (l : List TestScenario) (r : List (String × ExecResult)),
      ∀ pr ∈ r, ∃ q ∈ l.foldl (runTaskStep runOne auth) r, q.1 = pr.1 := by
  intro l
  induction l with
  | nil => intro r pr hpr; exact ⟨pr, hpr, rfl⟩
  | cons s rest ih =>
    intro r pr hpr
    rw [List.foldl_cons]
    obtain ⟨q, hq, hqk⟩ := runTaskStep_pres_keys runOne auth r s pr hpr
    obtain ⟨q2, hq2, hq2k⟩ := ih _ q hq
    exact ⟨q2, hq2, hq2k.trans hqk⟩

lemma runTaskFold_values (runOne : TestScenario → ExecResult)
    (auth : Option TestScenario) (scenarios : List TestScenario) :
    ∀ (l : List TestScenario) (r : List (String × ExecResult)),
      (∀ a ∈ l, a ∈ scenarios) →
      (∀ pr ∈ r, ∃ s ∈ scenarios, pr.1 = s.id ∧ pr.2 = runOne s) →
      ∀ pr ∈ l.foldl (runTaskStep runOne auth) r,
        ∃ s ∈ scenarios, pr.1 = s.id ∧ pr.2 = runOne s := by
  intro l
  induction l with
  | nil => intro r _ hr pr hpr; exact hr pr hpr
  | cons s rest ih =>
    intro r hl hr pr hpr
    rw [List.foldl_cons] at hpr
    refine ih _ (fun a ha => hl a (by simp [ha])) ?_ pr hpr
    intro q hq
    rcases runTaskStep_cases runOne auth r s with ⟨heq, _⟩ | heq <;> rw [heq] at hq
    · exact hr q hq
    · rcases upsert_mem r s.id (runOne s) q hq with h | h
      · exact hr q h
      · exact ⟨s, hl s (by simp), by simp [h]⟩

lemma runTaskFold_all_recorded (runOne : TestScenario → ExecResult)
    (auth : Option TestScenario) :
    ∀ (l : List TestScenario) (r : List (String × ExecResult)),
      (∀ a, auth = some a → ∃ pr ∈ r, pr.1 = a.id) →
      ∀ s ∈ l, ∃ pr ∈ l.foldl (runTaskStep runOne auth) r, pr.1 = s.id := by
  intro l
  induction l with
  | nil => intro r _ s hs; exact absurd hs (List.not_mem_nil s)
  | cons s0 rest ih =>
    intro r hauth s hs
    rw [List.foldl_cons]
    have hauth2 : ∀ a, auth = some a →
        ∃ pr ∈ runTaskStep runOne auth r s0, pr.1 = a.id := by
      intro a ha
      obtain ⟨pr, hpr, hprk⟩ := hauth a ha
      obtain ⟨q, hq, hqk⟩ := runTaskStep_pres_keys runOne auth r s0 pr hpr
      exact ⟨q, hq, hqk.trans hprk⟩
    rcases List.mem_cons.mp hs with rfl | hs
    · rcases runTaskStep_cases runOne auth r s with ⟨heq, a, ha, hsa⟩ | heq
      · obtain ⟨pr, hpr, hprk⟩ := hauth a ha
        rw [← heq] at hpr
        obtain ⟨q, hq, hqk⟩ := runTaskFold_keys_preserved runOne auth rest _ pr hpr
        exact ⟨q, hq, by rw [hqk, hprk, hsa]⟩
      · obtain ⟨pr, hpr, hprk⟩ := upsert_key_mem r s.id (runOne s)
        rw [← heq] at hpr
        obtain ⟨q, hq, hqk⟩ := runTaskFold_keys_preserved runOne auth rest _ pr hpr
        exact ⟨q, hq, hqk.trans hprk⟩
    · exact ih _ hauth2 s hs

lemma runStep_assert_other (env : BrowserEnv) (baseUrl : String) (idx : Nat)
    (t : String) (v : Option String) (d : String) (ht : t ≠ "page_loaded") :
    runStep env baseUrl idx
      { action := "assert", target := t, value := v, description := d } = .ok () := by
  simp only [runStep]
  rw [if_neg (by decide : ¬("assert" : String) = "navigate"),
    if_neg (by decide : ¬("assert" : String) = "fill"),
    if_neg (by decide : ¬("assert" : String) = "click"),
    if_neg (by decide : ¬("assert" : String) = "wait"),
    if_neg ht]
  simp only [if_true]
  split
  · rfl
  split
  · rfl
  · rfl

lemma runStep_assert_page_loaded (env : BrowserEnv) (baseUrl : String) (idx : Nat)
    (v : Option String) (d : String) (htitle : env.pageTitle idx = "") :
    runStep env baseUrl idx
      { action := "assert", target := "page_loaded", value := v, description := d }
      = .error (.generic "Page did not load") := by
  simp [runStep, htitle]

lemma runStepsFrom_append (env : BrowserEnv) (baseUrl : String) :
    ∀ (pre rest : List TestStep) (k : Nat) (done : List String),
      (∀ i step, pre.get? i = some step → runStep env baseUrl (k + i) step = .ok ()) →
      runStepsFrom env baseUrl (pre ++ rest) k done
        = runStepsFrom env baseUrl rest (k + pre.length)
            (done ++ pre.map (fun st => st.description)) := by
  intro pre
  induction pre with
  | nil => intro rest k done _; simp [runStepsFrom]
  | cons step0 pre ih =>
    intro rest k done hok
    have h0 : runStep env baseUrl (k + 0) step0 = .ok () := hok 0 step0 rfl
    rw [Nat.add_zero] at h0
    have hok2 : ∀ i step, pre.get? i = some step →
        runStep env baseUrl (k + 1 + i) step = .ok () := by
      intro i step hi
      have hx := hok (i + 1) step (by simpa using hi)
      simpa [Nat.add_assoc, Nat.add_comm, Nat.add_left_comm] using hx
    simp only [List.cons_append, runStepsFrom, h0, List.append_eq]
    rw [ih rest (k + 1) (done ++ [step0.description]) hok2]
    simp [Nat.add_assoc, Nat.add_comm, Nat.add_left_comm]

lemma intercalate3 (a b c : String) :
    String.intercalate ", " [a, b, c] = a ++ ", " ++ b ++ ", " ++ c := by
  simp [String.intercalate, String.intercalate.go]

lemma foldl_preserves {α β : Type} (P : β → Prop) (f : β → α → β)
    (hf : ∀ b a, P b → P (f b a)) :
    ∀ (l : List α) (b : β), P b → P (l.foldl f b) := by
  intro l
  induction l with
  | nil => intro b h; exact h
  | cons a t ih => intro b h; exact ih _ (hf b a h)

lemma crawlInv_explorePage (env : CrawlEnv) (maxPages : Nat) (dom : String) :
    ∀ (fuel : Nat) (st : ExplorerState) (url : String),
      CrawlInv env dom st → CrawlInv env dom (explorePage env maxPages fuel st url) := by
  intro fuel
  induction fuel with
  | zero => intro st url h; exact h
  | succ fuel ih =>
    intro st url h
    obtain ⟨hdom, hvis, hpag⟩ := h
    rw [explorePage]
    split
    · exact ⟨hdom, hvis, hpag⟩
    · next hskip =>
      split
      · exact ⟨hdom, hvis, hpag⟩
      · next hnet =>
        have hurl : env.netloc url = dom := by
          rw [← hdom]
          exact not_ne_iff.mp hnet
        have h1 : CrawlInv env dom { st with visited := st.visited ++ [url] } := by
          refine ⟨hdom, ?_, ?_⟩
          · intro u hu
            rcases List.mem_append.mp hu with h2 | h2
            · exact hvis u h2
            · rw [List.mem_singleton.mp h2]
              exact hurl
          · intro p hp
            exact List.mem_append_left _ (hpag p hp)
        split
        · exact h1
        · next ext links heq =>
          apply foldl_preserves (CrawlInv env dom)
          · intro st2 link h2
            dsimp only
            split
            · exact h2
            · exact ih st2 _ h2
          · obtain ⟨g1, g2, g3⟩ := h1
            refine ⟨g1, g2, ?_⟩
            intro p hp
            rcases List.mem_append.mp hp with h2 | h2
            · exact g3 p h2
            · rw [List.mem_singleton.mp h2]
              simp [extractPageInfo]

/-- C1: with retries starting at 0 and max_retries = 3, when every invocation of
the execute stage yields a non-zero composite exit code, the graph performs
exactly 4 execute invocations, `retries` ends at 3, the run proceeds through
`report` (the last completed step) and the run's terminal status is
`"completed"`; and `should_fix` returns `"fix_tests"` exactly when the exit
code is non-zero and `retries < max_retries`. -/
theorem C1_retry_loop_bound (execRes : Nat → TestResults) (fixOk : Nat → Bool)
    (h : ∀ n, (execRes n).exit_code ≠ 0) :
    ((runGraph execRes fixOk 3 5).map (fun p =>
        (p.1.retries, p.2, p.1.steps_completed.count "execute",
          p.1.steps_completed.getLast?)) = some (3, 4, 4, some "report")) ∧
    runAgentStatus execRes fixOk 3 5 = "completed" ∧
    (∀ (r : Nat) (res : TestResults),
      shouldFix
        { steps_completed := [], error_log := [], retries := r,
          max_retries := 3, test_results := some res } = "fix_tests" ↔
      (res.exit_code ≠ 0 ∧ r < 3)) := by
  refine ⟨?_, ?_, ?_⟩
  · cases hf1 : fixOk 1 <;> cases hf2 : fixOk 2 <;> cases hf3 : fixOk 3 <;>
      simp [runGraph, execFixLoop, executeTestsNode, fixTestsNode, shouldFix,
        hf1, hf2, hf3, h 1, h 2, h 3, h 4, List.count_cons, List.count_append]
  · cases hf1 : fixOk 1 <;> cases hf2 : fixOk 2 <;> cases hf3 : fixOk 3 <;>
      simp [runAgentStatus, runGraph, execFixLoop, executeTestsNode, fixTestsNode,
        shouldFix, hf1, hf2, hf3, h 1, h 2, h 3, h 4]
  · intro r res
    simp only [shouldFix]
    have hred : (Option.map (fun r : TestResults => r.exit_code) (some res)).getD 0
        = res.exit_code := rfl
    rw [hred]
    constructor
    · intro hfix
      by_contra hcon
      rw [if_neg hcon] at hfix
      exact absurd hfix (by decide)
    · intro hcond
      rw [if_pos hcond]

/-- C2 (amended): in every plan the only id a set `depends_on` ever references
is `"auth_001"`; and whenever a scenario with id `"auth_001"` exists, it
strictly precedes (in emission order) every scenario whose `depends_on` is
set.  The reference may however dangle: no scenario with id `"auth_001"` need
exist (see the counterexample). -/
theorem C2_depends_on_amended (appMap : AppMap) :
    (∀ s ∈ plannerScenarios appMap, ∀ d, s.depends_on = some d → d = "auth_001") ∧
    (∀ j sj, (plannerScenarios appMap).get? j = some sj → sj.id = "auth_001" →
      ∀ k sk, (plannerScenarios appMap).get? k = some sk → sk.depends_on.isSome → j < k) := by
  have hg := plannerScenarios_good appMap
  constructor
  · intro s hs d hd
    obtain ⟨k, hk⟩ := List.get?_of_mem hs
    obtain ⟨p, hp, hid, hdep, hauth, hst⟩ := hg k s hk
    rcases hdep with h0 | h0 <;> rw [h0] at hd
    · cases hd
    · cases hd
      rfl
  · intro j sj hjs hid k sk hks hdep
    have hj0 : j = 0 := good_id_auth001 hg hjs hid
    subst hj0
    rcases Nat.eq_zero_or_pos k with rfl | hk
    · rw [hjs] at hks
      cases hks
      obtain ⟨p, hp, hpid, _, hauth, _⟩ := hg 0 sj hjs
      rw [hid] at hpid
      rw [hauth (pfx_append_eq_auth001 hp hpid.symm).1] at hdep
      simp at hdep
    · exact hk

/-- C2 (counterexample): for an app map whose only module is a dashboard module
with `requires_auth` set, the single emitted scenario `dash_001` carries
`depends_on = "auth_001"` although no scenario with that id exists in the
plan, refuting the claim that `depends_on` always references a scenario that
exists in the same plan and was emitted earlier. -/
theorem C2_depends_on_counterexample :
    depsResolvedB (plannerScenarios cDashOnlyMap) = false ∧
    ((plannerScenarios cDashOnlyMap).map (fun s => (s.id, s.depends_on)))
      = [("dash_001", some "auth_001")] := by
  constructor <;> rfl

/-- C3 (amended): scenario ids are numbered by one shared planner-wide counter,
not per prefix: the scenario at emission index k has id `p ++ "_" ++ pad3
(k+1)` for some prefix p in {auth, dash, profile, crud, gen}. -/
theorem C3_global_counter_ids (appMap : AppMap) :
    ∀ k s, (plannerScenarios appMap).get? k = some s →
      ∃ p, p ∈ pfxList ∧ s.id = p ++ "_" ++ pad3 (k + 1) := by
  intro k s hk
  obtain ⟨p, hp, hid, _, _, _⟩ := plannerScenarios_good appMap k s hk
  exact ⟨p, hp, hid⟩

/-- C3 (counterexample): for an app map with one login page and one dashboard
page the plan's ids are auth_001..auth_004 followed by dash_005, so the dash
prefix family does not start at 001: per-prefix sequential numbering fails. -/
theorem C3_per_prefix_counterexample :
    idsSequentialPerPfx ((plannerScenarios cMixedMap).map (fun s => s.id)) = false := by
  rfl

/-- C4: for an app map containing exactly one page, of type login, the planner
emits exactly four scenarios with ids auth_001..auth_004 in emission order
and types happy_path, error_path, edge_case, security respectively. -/
theorem C4_login_plan (baseUrl : String) (page : Page) (ra : Option Bool)
    (hlogin : page.type = "login") :
    ((plannerScenarios
      { base_url := baseUrl, pages := [page],
        modules := [("auth", { pages := [page], requires_auth := ra })] }).map
          (fun s => (s.id, s.type)))
      = [("auth_001", ScenarioType.happy_path), ("auth_002", ScenarioType.error_path),
         ("auth_003", ScenarioType.edge_case), ("auth_004", ScenarioType.security)] := by
  simp [plannerScenarios, genModule, genAuthScenarios, genAuthPage, hlogin,
    emit, nextId, pad3]
  decide

/-- C5: the executor's composite exit code is 0 iff every scenario's result is
passed or skipped, and 1 iff at least one scenario's result is failed. -/
theorem C5_composite_exit_code (outcomes : List (String × TestRunOutcome)) :
    (compositeExitCode (batchResults outcomes) = 0 ↔
      ∀ r ∈ batchResults outcomes, r = "passed" ∨ r = "skipped") ∧
    (compositeExitCode (batchResults outcomes) = 1 ↔
      "failed" ∈ batchResults outcomes) := by
  have hmem : ∀ r ∈ batchResults outcomes,
      r = "passed" ∨ r = "failed" ∨ r = "skipped" := by
    intro r hr
    obtain ⟨p, _, hp⟩ := List.mem_map.mp hr
    exact hp ▸ resultOfOutcome_cases p.2
  unfold compositeExitCode
  constructor
  · constructor
    · intro h r hr
      split at h
      · next hcount =>
        rcases hmem r hr with h1 | h1 | h1
        · exact Or.inl h1
        · exact absurd (h1 ▸ hr) (List.count_eq_zero.mp hcount)
        · exact Or.inr h1
      · exact absurd h (by norm_num)
    · intro h
      rw [if_pos (List.count_eq_zero.mpr (fun hmem2 => by
        rcases h "failed" hmem2 with h1 | h1 <;> simp at h1))]
  · constructor
    · intro h
      split at h
      · exact absurd h (by norm_num)
      · next hcount =>
        exact List.count_pos_iff_mem.mp (Nat.pos_of_ne_zero hcount)
    · intro h
      rw [if_neg (fun hcount => (List.count_eq_zero.mp hcount) h)]

/-- C6 (amended): `run_scenarios_task` executes every scenario regardless of its
dependency's outcome: each scenario's id receives a result, and every
recorded result is exactly what `execute_scenario` returned for some
scenario of the batch - the runner itself never synthesizes a `skipped`
result or a "dependency <id> <status>" message. -/
theorem C6_no_dependency_skip (runOne : TestScenario → ExecResult)
    (scenarios : List TestScenario) :
    (∀ s ∈ scenarios, ∃ pr ∈ runScenariosTask runOne scenarios, pr.1 = s.id) ∧
    (∀ pr ∈ runScenariosTask runOne scenarios,
      ∃ s ∈ scenarios, pr.1 = s.id ∧ pr.2 = runOne s) := by
  unfold runScenariosTask
  constructor
  · apply runTaskFold_all_recorded
    intro a ha
    rw [ha]
    exact upsert_key_mem [] a.id (runOne a)
  · refine runTaskFold_values runOne _ scenarios scenarios _ (fun a ha => ha) ?_
    intro pr hpr
    cases hfa : findAuthScenario scenarios with
    | none => rw [hfa] at hpr; exact absurd hpr (List.not_mem_nil pr)
    | some a =>
      rw [hfa] at hpr
      rcases upsert_mem [] a.id (runOne a) pr hpr with h | h
      · exact absurd h (List.not_mem_nil pr)
      · have ha : a ∈ scenarios := by
          unfold findAuthScenario at hfa
          split at hfa
          · exact absurd hfa (by simp)
          · exact List.mem_of_find?_eq_some hfa
        exact ⟨a, ha, by simp [h]⟩

/-- C6 (counterexample): with scenario "b" depending on scenario "a" and "a"
failing, "b" is still executed and its recorded result is `passed` with no
message, not `skipped` with message "dependency a failed". -/
theorem C6_dependency_skip_counterexample :
    (((runScenariosTask cRunOne [cScnA, cScnB]).find?
        (fun p => decide (p.1 = "a"))).map (fun p => p.2.status) = some "failed") ∧
    (((runScenariosTask cRunOne [cScnA, cScnB]).find?
        (fun p => decide (p.1 = "b"))).map (fun p => (p.2.status, p.2.error))
      = some ("passed", none)) ∧
    ("passed" : String) ≠ "skipped" := by
  refine ⟨rfl, rfl, by decide⟩

/-- C7 (amended): in `execute_scenario` only the `page_loaded` predicate is
evaluated by an assert step: an assert on any other target never fails (it
is a no-op), and when `page_loaded` fails the scenario ends failed with
message "Page did not load" (the assertion text, not the predicate name) and
the remaining steps do not run. -/
theorem C7_assert_semantics :
    (∀ (env : BrowserEnv) (baseUrl : String) (idx : Nat) (t : String)
      (v : Option String) (d : String), t ≠ "page_loaded" →
      runStep env baseUrl idx
        { action := "assert", target := t, value := v, description := d } = .ok ()) ∧
    (∀ (env : BrowserEnv) (baseUrl : String) (scenario : TestScenario)
      (pre post : List TestStep) (v : Option String) (d : String),
      scenario.steps = pre ++
        ({ action := "assert", target := "page_loaded", value := v,
           description := d } :: post) →
      (∀ i step, pre.get? i = some step → runStep env baseUrl i step = .ok ()) →
      env.pageTitle pre.length = "" →
      executeScenario env scenario baseUrl
        = { id := scenario.id, name := scenario.name, status := "failed",
            steps_completed := pre.map (fun st => st.description),
            error := some "Page did not load" }) := by
  constructor
  · exact runStep_assert_other
  · intro env baseUrl scenario pre post v d hsteps hpre htitle
    unfold executeScenario
    rw [hsteps, runStepsFrom_append env baseUrl pre _ 0 [] (by simpa using hpre)]
    rw [runStepsFrom]
    rw [runStep_assert_page_loaded env baseUrl (0 + pre.length) v d
      (by simpa using htitle)]
    simp

/-- C7 (counterexample): a scenario whose only step asserts `validation_error`
finishes `passed` with no error even though the predicate does not hold, and
a failing `page_loaded` assert reports "Page did not load" rather than the
predicate name. -/
theorem C7_assert_counterexample :
    ((executeScenario cBrowserEnv cValidationScn "http://localhost:3000").status
        = "passed") ∧
    ((executeScenario cBrowserEnv cValidationScn "http://localhost:3000").status
        ≠ "failed") ∧
    ((executeScenario cBrowserEnv cValidationScn "http://localhost:3000").error
        = none) ∧
    ((executeScenario cBrowserEnv cPageLoadedScn "http://localhost:3000").error
        = some "Page did not load") ∧
    (some "Page did not load" ≠ some ("page_loaded" : String)) := by
  refine ⟨rfl, by decide, rfl, rfl, by decide⟩

/-- C8: the explorer never visits a URL whose host differs from the host of the
base URL, and every page URL in the crawl result has the base URL's host. -/
theorem C8_same_origin (env : CrawlEnv) (baseUrl : String) (maxPages fuel : Nat) :
    (∀ u ∈ (exploreRun env baseUrl maxPages fuel).visited,
      env.netloc u = env.netloc baseUrl) ∧
    (∀ p ∈ (exploreAppMap env baseUrl maxPages fuel).pages,
      env.netloc p.url = env.netloc baseUrl) := by
  obtain ⟨h1, h2, h3⟩ := crawlInv_explorePage env maxPages (env.netloc baseUrl) fuel
    { domain := env.netloc baseUrl, visited := [], pages := [], auth_pages := [] }
    (rstripSlash baseUrl) ⟨rfl, by simp, by simp⟩
  exact ⟨h2, fun p hp => h2 p.url (h3 p hp)⟩

/-- C9 (amended): for an input with non-empty id and name the recorded selector
is the comma-joined first three candidates only - `#id`, `input[name=...]`
and `[name=...]` - because `_build_input_selector` truncates the priority
list to three entries; the `input[type=...]` fallback is dropped. -/
theorem C9_selector_truncated (inpId inpName inpType inpClass : String)
    (hid : inpId ≠ "") (hname : inpName ≠ "") :
    buildInputSelector inpId inpName inpType inpClass
      = "#" ++ inpId ++ ", " ++ ("input[name='" ++ inpName ++ "']") ++ ", " ++
        ("[name='" ++ inpName ++ "']") := by
  unfold buildInputSelector
  rw [if_pos hid, if_pos hname]
  simp only [List.cons_append, List.nil_append, List.take, List.isEmpty]
  rw [intercalate3]
  simp

/-- C9 (counterexample): for an input with id "a", name "b" and type "text" the
selector is "#a, input[name='b'], [name='b']" and does not end with the
claimed `input[type='text']` component. -/
theorem C9_selector_counterexample :
    buildInputSelector "a" "b" "text" "" = "#a, input[name='b'], [name='b']" ∧
    buildInputSelector "a" "b" "text" ""
      ≠ "#a, input[name='b'], [name='b'], input[type='text']" := by
  constructor
  · rfl
  · decide

/-- C10: every generated plan is internally consistent: total_scenarios equals
the sum of the per-module scenario counts, module keys are distinct, every
scenario inside a module entry carries that module's key in its `module`
field and comes from the emission list, and every emitted scenario appears
in the module entry named by its `module` field with initial status
"pending". -/
theorem C10_plan_consistency (appMap : AppMap) :
    (generateScenarios appMap).total_scenarios
        = (((generateScenarios appMap).modules).map (fun p => p.2.scenarios.length)).sum ∧
    (((generateScenarios appMap).modules).map Prod.fst).Nodup ∧
    (∀ e ∈ (generateScenarios appMap).modules, ∀ t ∈ e.2.scenarios,
      t.module = e.1 ∧ t ∈ plannerScenarios appMap ∧ t.status = "pending") ∧
    (∀ t ∈ plannerScenarios appMap, t.status = "pending" ∧
      ∃ e, e ∈ (generateScenarios appMap).modules ∧ e.1 = t.module ∧
        t ∈ e.2.scenarios) := by
  refine ⟨?_, ?_, ?_, ?_⟩
  · rw [show (generateScenarios appMap).total_scenarios
        = (plannerScenarios appMap).length from rfl]
    rw [show (generateScenarios appMap).modules
        = (plannerScenarios appMap).foldl (insertGrouped appMap.modules) [] from rfl]
    rw [grouping_fold_sum appMap.modules (plannerScenarios appMap) [] (by simp)]
    simp
  · exact grouping_fold_keys_nodup appMap.modules (plannerScenarios appMap) [] (by simp)
  · intro e he t ht
    have := grouping_fold_module_eq appMap.modules (plannerScenarios appMap) [] []
      (by simp) e he t ht
    simp at this
    exact ⟨this.1, this.2, plannerScenarios_status appMap t this.2⟩
  · intro t ht
    refine ⟨plannerScenarios_status appMap t ht, ?_⟩
    exact grouping_fold_covers_all appMap.modules (plannerScenarios appMap) [] t ht


/-- C1 witness: the retry-loop theorem applied to the constantly failing
executor. -/
theorem C1_retry_loop_bound_witness :
    (∀ n, (cExecRes n).exit_code ≠ 0) ∧
    (((runGraph cExecRes cFixOk 3 5).map (fun p =>
        (p.1.retries, p.2, p.1.steps_completed.count "execute",
          p.1.steps_completed.getLast?)) = some (3, 4, 4, some "report")) ∧
    runAgentStatus cExecRes cFixOk 3 5 = "completed" ∧
    (∀ (r : Nat) (res : TestResults),
      shouldFix
        { steps_completed := [], error_log := [], retries := r,
          max_retries := 3, test_results := some res } = "fix_tests" ↔
      (res.exit_code ≠ 0 ∧ r < 3))) :=
  ⟨fun _ => by norm_num [cExecRes], C1_retry_loop_bound cExecRes cFixOk (fun _ => by norm_num [cExecRes])⟩

/-- C3 witness: the global-counter id theorem applied at index 0 of the plan
for `cMixedMap`. -/
theorem C3_global_counter_ids_witness :
    ((plannerScenarios cMixedMap).get? 0 = some c3Scn) ∧
    (∃ p, p ∈ pfxList ∧ c3Scn.id = p ++ "_" ++ pad3 (0 + 1)) :=
  ⟨rfl, C3_global_counter_ids cMixedMap 0 c3Scn rfl⟩

/-- C4 witness: the login-plan theorem applied to the concrete login page. -/
theorem C4_login_plan_witness :
    (cLoginPage.type = "login") ∧
    ((plannerScenarios
      { base_url := "http://localhost:3000", pages := [cLoginPage],
        modules := [("auth", { pages := [cLoginPage],
                               requires_auth := some false })] }).map
          (fun s => (s.id, s.type)))
      = [("auth_001", ScenarioType.happy_path), ("auth_002", ScenarioType.error_path),
         ("auth_003", ScenarioType.edge_case), ("auth_004", ScenarioType.security)] :=
  ⟨rfl, C4_login_plan "http://localhost:3000" cLoginPage (some false) rfl⟩

/-- C9 witness: the truncated-selector theorem applied at a concrete input. -/
theorem C9_selector_truncated_witness :
    (("a" : String) ≠ "") ∧ (("b" : String) ≠ "") ∧
    buildInputSelector "a" "b" "text" ""
      = "#" ++ "a" ++ ", " ++ ("input[name='" ++ "b" ++ "']") ++ ", " ++
        ("[name='" ++ "b" ++ "']") :=
  ⟨by decide, by decide, C9_selector_truncated "a" "b" "text" "" (by decide) (by decide)⟩
